import Mathlib

/-!
# dream-dog-dilemma: the frame loop of `source/main.c`

A shallow embedding of `initialize_variables`, `main` and `do_ppu_mess`.

* The C globals that `main.c` reads or writes are the fields of `Vars`.
* Everything `main.c` calls but does not define is recorded, in program order,
  in `Machine.log`.  Game subsystems (banked procedures, fades, `load_map`,
  the frame wait, the crash screen, `reset`) are parameters: an `Env` gives,
  for each of them, its effect on the variables, or `none` when the call never
  returns.  Hardware primitives only appear in the log.
* Constants that come from headers are the fields of `Consts`.
-/

namespace DreamDog

/-! ## Constants from headers -/

/-- Values of the preprocessor constants `main.c` uses; their defining headers
are not part of the sources at hand, so every theorem is stated for an
arbitrary assignment. -/
structure Consts where
  GAME_STATE_SYSTEM_INIT : Nat
  GAME_STATE_TITLE_DRAW : Nat
  GAME_STATE_TITLE_INPUT : Nat
  GAME_STATE_POST_TITLE : Nat
  GAME_STATE_RUNNING : Nat
  GAME_STATE_SCREEN_SCROLL : Nat
  GAME_STATE_SHOWING_TEXT : Nat
  GAME_STATE_PAUSED : Nat
  GAME_STATE_GAME_OVER : Nat
  GAME_STATE_GAME_OVER_1 : Nat
  GAME_STATE_CREDITS : Nat
  PLAYER_POSITION_SHIFT : Nat
  SPRITE_DIRECTION_DOWN : Nat
  NO_SPRITE_HIT : Nat
  WORLD_OVERWORLD : Nat
  PRG_BANK_TITLE : Nat
  PRG_BANK_MAP_LOGIC : Nat
  PRG_BANK_HUD : Nat
  PRG_BANK_MAP_SPRITES : Nat
  PRG_BANK_PLAYER_SPRITE : Nat
  PRG_BANK_GAME_TEXT : Nat
  PRG_BANK_PAUSE_MENU : Nat
  PRG_BANK_GAME_OVER : Nat
  PRG_BANK_MENU_INPUT_HELPERS : Nat
  PRG_BANK_CREDITS_MENU : Nat
  SONG_TITLE : Nat
  SONG_LAYERS : Nat
  SFX_GAMEOVER : Nat
  SFX_WIN : Nat
  SFX_CHANNEL_1 : Nat
  FIRST_ENEMY_SPRITE_OAM_INDEX : Nat
  SPRITE_OFFSCREEN : Nat
  CHR_BANK_TILES : Nat
  ERR_UNKNOWN_GAME_STATE : String
  ERR_UNKNOWN_GAME_STATE_EXPLANATION : String

/-- The `case` labels of the `switch (gameState)` in `main`, in source order. -/
def Consts.caseLabels (K : Consts) : List Nat :=
  [K.GAME_STATE_SYSTEM_INIT, K.GAME_STATE_TITLE_DRAW, K.GAME_STATE_TITLE_INPUT,
   K.GAME_STATE_POST_TITLE, K.GAME_STATE_RUNNING, K.GAME_STATE_SCREEN_SCROLL,
   K.GAME_STATE_SHOWING_TEXT, K.GAME_STATE_PAUSED, K.GAME_STATE_GAME_OVER,
   K.GAME_STATE_GAME_OVER_1, K.GAME_STATE_CREDITS]

/-- C requires the labels of one `switch` to be pairwise different. -/
def Consts.LabelsDistinct (K : Consts) : Prop := K.caseLabels.Nodup

instance (K : Consts) : Decidable K.LabelsDistinct := by
  unfold Consts.LabelsDistinct; infer_instance

/-! ## Program state -/

/-- The globals `main.c` touches.  `lastCheckpointWorldState` is the 64-entry
array; `oam_0x204` is the byte at address `0x204`; `randSeed` is the state of
the library random number generator. -/
structure Vars where
  playerOverworldPosition : Nat
  playerHealth : Nat
  playerMaxHealth : Nat
  playerXPosition : Nat
  playerYPosition : Nat
  playerDirection : Nat
  playerKeyCount : Nat
  lastPlayerSpriteCollisionId : Nat
  currentWorldId : Nat
  currentLayer : Nat
  lastCheckpointScreenId : Nat
  lastCheckpointLayer : Nat
  lastCheckpointKeyCount : Nat
  lastCheckpointPlayerX : Nat
  lastCheckpointPlayerY : Nat
  nearestCrack : Nat
  i : Nat
  lastCheckpointWorldState : Fin 64 → Nat
  gameState : Nat
  everyOtherCycle : Nat
  playerDeathCount : Nat
  frameCount : Nat
  crackTimer : Nat
  derp : Nat
  oam_0x204 : Nat
  randSeed : Nat

/-- Banked procedures that `main` reaches through `banked_call`. -/
inductive Proc where
  | draw_title_screen | handle_title_input | draw_intro | draw_warning
  | draw_current_map_to_a | init_map | load_sprites | draw_hud | update_hud
  | update_map_sprites | handle_player_movement | update_player_sprite
  | do_scroll_screen_transition | draw_game_text | draw_pause_screen
  | handle_pause_input | draw_game_over_screen | wait_for_start
  | restore_game_over | draw_win_screen | draw_credits_screen
  deriving DecidableEq, Repr

/-- Operations that leave `main.c`: calls into game subsystems and hardware
primitives, with their arguments. -/
inductive Op where
  | fade_out_instant
  | fade_in
  | fade_out
  | load_map
  | ppu_wait_nmi
  | reset
  | banked_call (bank : Nat) (proc : Proc)
  | crash_error_use_banked_details (errorId explanation numberName : String) (number : Nat)
  | bank_spr (n : Nat)
  | ppu_off
  | ppu_on_all
  | music_play (song : Nat)
  | music_stop
  | sfx_play (sound channel : Nat)
  | set_rand (seed : Nat)
  | oam_hide_rest (index : Nat)
  | set_chr_bank_0 (bank : Nat)
  | rand8 (value : Nat)
  | read_0x2002
  | write_0x2005 (value : Nat)
  | nop
  deriving DecidableEq, Repr

/-- Variables together with the record of operations performed so far. -/
structure Machine where
  vars : Vars
  log : List Op

/-- Result of running a statement: control came back, or a callee kept it. -/
inductive Outcome where
  | returned (m : Machine)
  | halted (m : Machine)

/-- The machine an outcome ends in. -/
def Outcome.machine : Outcome → Machine
  | .returned m => m
  | .halted m => m

/-- Sequencing: the continuation runs only when control came back. -/
def Outcome.andThen (o : Outcome) (f : Machine → Outcome) : Outcome :=
  match o with
  | .returned m => f m
  | .halted m => .halted m

/-- A C statement. -/
abbrev Stmt := Machine → Outcome

/-- Effect of each game subsystem on the variables; `none`: it never returns. -/
abbrev Env := Op → Vars → Option Vars

/-- Call of a game subsystem. -/
def invoke (env : Env) (op : Op) : Stmt := fun m =>
  match env op m.vars with
  | some v => .returned { vars := v, log := m.log ++ [op] }
  | none => .halted { vars := m.vars, log := m.log ++ [op] }

/-- Modelled from the spec: the hardware primitives of neslib and the bank
helpers (`bank_spr`, `ppu_off`, `ppu_on_all`, `music_play`, `music_stop`,
`sfx_play`, `oam_hide_rest`, `set_chr_bank_0`, and the raw register accesses)
are defined in assembly that is not among the sources; the spec describes them
as fire-and-forget hardware operations, so a primitive is recorded in the log,
returns, and leaves the C variables alone. -/
def prim (op : Op) (m : Machine) : Machine :=
  { m with log := m.log ++ [op] }

/-- Assignment statements. -/
def assign (f : Vars → Vars) : Stmt := fun m =>
  .returned { m with vars := f m.vars }

/-- A primitive used as a statement. -/
def primS (op : Vars → Op) : Stmt := fun m =>
  .returned (prim (op m.vars) m)

/-- A brace-enclosed statement sequence. -/
def block : List Stmt → Stmt
  | [] => fun m => .returned m
  | s :: rest => fun m => (s m).andThen (block rest)

/-! ## `initialize_variables` -/

/-- Store into `lastCheckpointWorldState[i]`. -/
def setEntry (a : Fin 64 → Nat) (i : Nat) (x : Nat) : Fin 64 → Nat :=
  fun j => if j.val = i then x else a j

/-- The loop `for (...; i < 64; ++i) { lastCheckpointWorldState[i] = 0; }`
after its initialisation; `i` is a byte, so `++i` wraps at 256. -/
def clearWorldState : Nat → Vars → Vars
  | 0, v => v
  | fuel + 1, v =>
    if v.i < 64 then
      clearWorldState fuel
        { v with lastCheckpointWorldState := setEntry v.lastCheckpointWorldState v.i 0,
                 i := (v.i + 1) % 256 }
    else v

/-- The assignments of `initialize_variables`, lines 32-54. -/
def initialize_variables_writes (K : Consts) (v : Vars) : Vars :=
  let v := { v with playerOverworldPosition := 0 }
  let v := { v with playerHealth := 1 }
  let v := { v with playerMaxHealth := 1 }
  let v := { v with playerXPosition := 128 <<< K.PLAYER_POSITION_SHIFT }
  let v := { v with playerYPosition := 128 <<< K.PLAYER_POSITION_SHIFT }
  let v := { v with playerDirection := K.SPRITE_DIRECTION_DOWN }
  let v := { v with playerKeyCount := 0 }
  let v := { v with lastPlayerSpriteCollisionId := K.NO_SPRITE_HIT }
  let v := { v with currentWorldId := K.WORLD_OVERWORLD }
  let v := { v with currentLayer := 0 }
  let v := { v with lastCheckpointScreenId := v.playerOverworldPosition }
  let v := { v with lastCheckpointLayer := v.currentLayer }
  let v := { v with lastCheckpointKeyCount := v.playerKeyCount }
  let v := { v with lastCheckpointPlayerX := v.playerXPosition }
  let v := { v with lastCheckpointPlayerY := v.playerYPosition }
  let v := { v with nearestCrack := 0xff }
  let v := { v with i := 0 }
  clearWorldState 64 v

/-- The function `initialize_variables`: the assignments, then `bank_spr(1)`. -/
def initialize_variables (K : Consts) (m : Machine) : Machine :=
  prim (.bank_spr 1) { m with vars := initialize_variables_writes K m.vars }

/-! ## `do_ppu_mess` -/

/-- Modelled from the spec: `rand8()` of neslib ("random_byte() -> byte").  The
generator `gen` maps the current seed to the value produced and the next seed;
the value is reduced to a byte and the draw is recorded in the log. -/
def rand8 (gen : Nat → Nat × Nat) (m : Machine) : Nat × Machine :=
  ((gen m.vars.randSeed).1 % 256,
   { vars := { m.vars with randSeed := (gen m.vars.randSeed).2 },
     log := m.log ++ [Op.rand8 ((gen m.vars.randSeed).1 % 256)] })

/-- The loop `for (...; derp < 200; ++derp) { nop }` after its initialisation;
`derp` is a byte. -/
def busyWait : Nat → Machine → Machine
  | 0, m => m
  | fuel + 1, m =>
    if m.vars.derp < 200 then
      busyWait fuel
        { vars := { m.vars with derp := (m.vars.derp + 1) % 256 },
          log := m.log ++ [Op.nop] }
    else m

/-- The body of the first `if` of either layer (lines 222-231 and 243-252): a
draw kept in `derp`, a read of `$2002`, `derp` and a fresh draw written to
`$2005`, and the 200-step busy loop. -/
def fakeScroll (gen : Nat → Nat × Nat) (m : Machine) : Machine :=
  let r := rand8 gen m
  let m := { r.2 with vars := { r.2.vars with derp := r.1 } }
  let m := prim .read_0x2002 m
  let m := prim (.write_0x2005 m.vars.derp) m
  let r := rand8 gen m
  let m := prim (.write_0x2005 r.1) r.2
  let m := { m with vars := { m.vars with derp := 0 } }
  busyWait 200 m

/-- Lines 221-232: `if ((frameCount & 0xf0) < 0x40 && rand8() > 200) {...}`. -/
def glitch3 (gen : Nat → Nat × Nat) (m : Machine) : Machine :=
  if m.vars.frameCount &&& 0xf0 < 0x40 then
    let r := rand8 gen m
    if r.1 > 200 then fakeScroll gen r.2 else r.2
  else m

/-- Lines 234-238: the bank selection of layer 3. -/
def bank3 (K : Consts) (gen : Nat → Nat × Nat) (m : Machine) : Machine :=
  if m.vars.frameCount &&& 0xf0 = 0x20 then
    let r := rand8 gen m
    if r.1 > 200 then
      prim (.set_chr_bank_0 (K.CHR_BANK_TILES + r.2.vars.currentLayer + 2)) r.2
    else
      prim (.set_chr_bank_0 (K.CHR_BANK_TILES + r.2.vars.currentLayer)) r.2
  else
    prim (.set_chr_bank_0 (K.CHR_BANK_TILES + m.vars.currentLayer)) m

/-- Lines 242-253: `if ((frameCount & 0xf0) > 0xb0 && rand8() > 100) {...}`. -/
def glitch4 (gen : Nat → Nat × Nat) (m : Machine) : Machine :=
  if m.vars.frameCount &&& 0xf0 > 0xb0 then
    let r := rand8 gen m
    if r.1 > 100 then fakeScroll gen r.2 else r.2
  else m

/-- Lines 255-259: the bank selection of layer 4. -/
def bank4 (K : Consts) (gen : Nat → Nat × Nat) (m : Machine) : Machine :=
  if m.vars.frameCount &&& 0xf0 > 0x90 then
    let r := rand8 gen m
    if r.1 > 100 then
      prim (.set_chr_bank_0 (K.CHR_BANK_TILES + r.2.vars.currentLayer + 2)) r.2
    else
      prim (.set_chr_bank_0 (K.CHR_BANK_TILES + r.2.vars.currentLayer)) r.2
  else
    prim (.set_chr_bank_0 (K.CHR_BANK_TILES + m.vars.currentLayer)) m

/-- The function `do_ppu_mess`. -/
def do_ppu_mess (K : Consts) (gen : Nat → Nat × Nat) (m : Machine) : Machine :=
  if m.vars.gameState ≠ K.GAME_STATE_RUNNING then m
  else
    let m := if m.vars.currentLayer = 3 then bank3 K gen (glitch3 gen m) else m
    let m := if m.vars.currentLayer = 4 then bank4 K gen (glitch4 gen m) else m
    m

/-! ## `main` -/

/-- One `case` (or the `default`, with `label = none`) of a `switch`: the
statements up to the next label and whether they end in `break`. -/
structure Case where
  label : Option Nat
  body : List Stmt
  endsWithBreak : Bool

/-- Execution from the first statement of a case: run its statements and, when
they do not end in `break`, go on with the case that follows. -/
def fallFrom : List Case → Stmt
  | [] => fun m => .returned m
  | c :: rest => fun m =>
    (block c.body m).andThen (if c.endsWithBreak then Outcome.returned else fallFrom rest)

/-- The cases from the one labelled `x` onwards. -/
def jumpTo (x : Nat) : List Case → Option (List Case)
  | [] => none
  | c :: rest => if c.label = some x then some (c :: rest) else jumpTo x rest

/-- The cases from `default` onwards. -/
def jumpToDefault : List Case → Option (List Case)
  | [] => none
  | c :: rest => if c.label = none then some (c :: rest) else jumpToDefault rest

/-- The statement `switch (x) { cases }`. -/
def switch (x : Nat) (cases : List Case) : Stmt := fun m =>
  match jumpTo x cases with
  | some cs => fallFrom cs m
  | none =>
    match jumpToDefault cases with
    | some cs => fallFrom cs m
    | none => .returned m

/-- The statement `if (cond) { body }`. -/
def ifThen (cond : Vars → Bool) (body : List Stmt) : Stmt := fun m =>
  if cond m.vars then block body m else .returned m

/-- Modelled from the spec: `set_rand(seed)` of neslib ("seed_prng(seed)"): the
generator state becomes the argument. -/
def set_rand (seed : Vars → Nat) : Stmt := fun m =>
  .returned (prim (.set_rand (seed m.vars))
    { m with vars := { m.vars with randSeed := seed m.vars } })

/-- The body of the `switch (gameState)` of `main`, lines 69-203. -/
def mainCases (K : Consts) (env : Env) : List Case :=
  [ { label := some K.GAME_STATE_SYSTEM_INIT
      body :=
        [ fun m => .returned (initialize_variables K m),
          assign fun v => { v with gameState := K.GAME_STATE_TITLE_DRAW } ]
      endsWithBreak := true },
    { label := some K.GAME_STATE_TITLE_DRAW
      body :=
        [ invoke env (.banked_call K.PRG_BANK_TITLE .draw_title_screen),
          primS fun _ => .music_play K.SONG_TITLE,
          invoke env .fade_in ]
      endsWithBreak := true },
    { label := some K.GAME_STATE_TITLE_INPUT
      body := [ invoke env (.banked_call K.PRG_BANK_TITLE .handle_title_input) ]
      endsWithBreak := true },
    { label := some K.GAME_STATE_POST_TITLE
      body :=
        [ invoke env (.banked_call K.PRG_BANK_TITLE .draw_intro),
          invoke env (.banked_call K.PRG_BANK_TITLE .draw_warning),
          assign fun v => { v with playerDeathCount := 0 },
          primS fun _ => .music_stop,
          invoke env .fade_out,
          invoke env .load_map,
          invoke env (.banked_call K.PRG_BANK_MAP_LOGIC .draw_current_map_to_a),
          primS fun _ => .ppu_off,
          invoke env (.banked_call K.PRG_BANK_MAP_LOGIC .init_map),
          invoke env (.banked_call K.PRG_BANK_MAP_LOGIC .load_sprites),
          invoke env (.banked_call K.PRG_BANK_HUD .draw_hud),
          primS fun _ => .ppu_on_all,
          set_rand fun v => v.frameCount,
          primS fun v => .music_play (K.SONG_LAYERS + v.currentLayer),
          invoke env .fade_in,
          assign fun v => { v with gameState := K.GAME_STATE_RUNNING } ]
      endsWithBreak := true },
    { label := some K.GAME_STATE_RUNNING
      body :=
        [ invoke env (.banked_call K.PRG_BANK_HUD .update_hud),
          invoke env (.banked_call K.PRG_BANK_MAP_SPRITES .update_map_sprites),
          invoke env (.banked_call K.PRG_BANK_PLAYER_SPRITE .handle_player_movement),
          invoke env (.banked_call K.PRG_BANK_PLAYER_SPRITE .update_player_sprite) ]
      endsWithBreak := true },
    { label := some K.GAME_STATE_SCREEN_SCROLL
      body :=
        [ primS fun _ => .oam_hide_rest K.FIRST_ENEMY_SPRITE_OAM_INDEX,
          assign fun v => { v with crackTimer := 0 },
          assign fun v => { v with oam_0x204 := K.SPRITE_OFFSCREEN % 256 },
          invoke env (.banked_call K.PRG_BANK_MAP_LOGIC .do_scroll_screen_transition),
          assign fun v => { v with nearestCrack := 0xff } ]
      endsWithBreak := true },
    { label := some K.GAME_STATE_SHOWING_TEXT
      body :=
        [ invoke env (.banked_call K.PRG_BANK_GAME_TEXT .draw_game_text),
          assign fun v => { v with gameState := K.GAME_STATE_RUNNING } ]
      endsWithBreak := true },
    { label := some K.GAME_STATE_PAUSED
      body :=
        [ invoke env .fade_out,
          invoke env (.banked_call K.PRG_BANK_PAUSE_MENU .draw_pause_screen),
          invoke env .fade_in,
          invoke env (.banked_call K.PRG_BANK_PAUSE_MENU .handle_pause_input),
          invoke env .fade_out,
          ifThen (fun v => v.gameState != K.GAME_STATE_GAME_OVER_1)
            [ invoke env (.banked_call K.PRG_BANK_MAP_LOGIC .draw_current_map_to_a),
              primS fun _ => .ppu_off,
              invoke env (.banked_call K.PRG_BANK_MAP_LOGIC .init_map),
              invoke env (.banked_call K.PRG_BANK_HUD .draw_hud),
              primS fun _ => .ppu_on_all,
              invoke env .fade_in ] ]
      endsWithBreak := true },
    { label := some K.GAME_STATE_GAME_OVER
      body := [ invoke env .fade_out ]
      endsWithBreak := false },
    { label := some K.GAME_STATE_GAME_OVER_1
      body :=
        [ invoke env (.banked_call K.PRG_BANK_GAME_OVER .draw_game_over_screen),
          primS fun _ => .sfx_play K.SFX_GAMEOVER K.SFX_CHANNEL_1,
          invoke env .fade_in,
          invoke env (.banked_call K.PRG_BANK_MENU_INPUT_HELPERS .wait_for_start),
          invoke env .fade_out,
          invoke env (.banked_call K.PRG_BANK_MAP_LOGIC .restore_game_over),
          invoke env .load_map,
          invoke env (.banked_call K.PRG_BANK_MAP_LOGIC .draw_current_map_to_a),
          primS fun _ => .ppu_off,
          invoke env (.banked_call K.PRG_BANK_MAP_LOGIC .init_map),
          invoke env (.banked_call K.PRG_BANK_MAP_LOGIC .load_sprites),
          invoke env (.banked_call K.PRG_BANK_HUD .draw_hud),
          primS fun _ => .ppu_on_all,
          invoke env .fade_in,
          primS fun v => .music_play (K.SONG_LAYERS + v.currentLayer),
          assign fun v => { v with gameState := K.GAME_STATE_RUNNING } ]
      endsWithBreak := true },
    { label := some K.GAME_STATE_CREDITS
      body :=
        [ primS fun _ => .music_stop,
          primS fun _ => .sfx_play K.SFX_WIN K.SFX_CHANNEL_1,
          invoke env .fade_out,
          invoke env (.banked_call K.PRG_BANK_CREDITS_MENU .draw_win_screen),
          invoke env .fade_in,
          invoke env (.banked_call K.PRG_BANK_MENU_INPUT_HELPERS .wait_for_start),
          invoke env .fade_out,
          invoke env (.banked_call K.PRG_BANK_CREDITS_MENU .draw_credits_screen),
          invoke env .fade_in,
          invoke env (.banked_call K.PRG_BANK_MENU_INPUT_HELPERS .wait_for_start),
          invoke env .fade_out,
          invoke env .reset ]
      endsWithBreak := true },
    { label := none
      body :=
        [ fun m => invoke env
            (.crash_error_use_banked_details K.ERR_UNKNOWN_GAME_STATE
              K.ERR_UNKNOWN_GAME_STATE_EXPLANATION "gameState value" m.vars.gameState) m ]
      endsWithBreak := false } ]

/-- The machine once `everyOtherCycle = !everyOtherCycle;` has run. -/
def toggled (m : Machine) : Machine :=
  { m with vars :=
      { m.vars with everyOtherCycle := if m.vars.everyOtherCycle = 0 then 1 else 0 } }

/-- The statement `everyOtherCycle = !everyOtherCycle;`. -/
def toggleCycle : Stmt := fun m => .returned (toggled m)

/-- The statement `switch (gameState) {...}` of `main`. -/
def mainSwitch (K : Consts) (env : Env) : Stmt := fun m =>
  switch m.vars.gameState (mainCases K env) m

/-- One pass through the body of `while (1)`, lines 67-206. -/
def mainLoopBody (K : Consts) (env : Env) : Stmt :=
  block [ toggleCycle, mainSwitch K env, invoke env .ppu_wait_nmi ]

/-- The first `n` passes of `while (1)`. -/
def mainLoop (K : Consts) (env : Env) : Nat → Stmt
  | 0 => fun m => .returned m
  | n + 1 => fun m => (mainLoopBody K env m).andThen (mainLoop K env n)

/-- The function `main`, cut off after `n` passes of its loop. -/
def main (K : Consts) (env : Env) (n : Nat) : Stmt :=
  block [ invoke env .fade_out_instant,
          assign fun v => { v with gameState := K.GAME_STATE_SYSTEM_INIT },
          mainLoop K env n ]

/-- Subsystems that are documented not to come back: the crash screen and the
hardware reset. -/
def Op.fatal : Op → Bool
  | .reset => true
  | .crash_error_use_banked_details _ _ _ _ => true
  | _ => false

/-- Every subsystem other than the crash screen and `reset` returns. -/
def Returns (env : Env) : Prop :=
  ∀ op v, op.fatal = false → ∃ v2, env op v = some v2

/-- The variables a subsystem leaves (the unchanged ones if it never returns). -/
def after (env : Env) (op : Op) (v : Vars) : Vars := (env op v).getD v

/-- An environment in which every subsystem returns at once, changing nothing. -/
def idleEnv : Env := fun _ v => some v

/-- An environment in which the crash screen and `reset` keep control and
every other subsystem returns at once, changing nothing. -/
def haltingEnv : Env := fun op v => if op.fatal then none else some v

/-- The operations of the `GAME_STATE_GAME_OVER_1` case, lines 161-180, with
`layer` the value of `currentLayer` when the music is started. -/
def gameOver1Ops (K : Consts) (layer : Nat) : List Op :=
  [ .banked_call K.PRG_BANK_GAME_OVER .draw_game_over_screen,
    .sfx_play K.SFX_GAMEOVER K.SFX_CHANNEL_1,
    .fade_in,
    .banked_call K.PRG_BANK_MENU_INPUT_HELPERS .wait_for_start,
    .fade_out,
    .banked_call K.PRG_BANK_MAP_LOGIC .restore_game_over,
    .load_map,
    .banked_call K.PRG_BANK_MAP_LOGIC .draw_current_map_to_a,
    .ppu_off,
    .banked_call K.PRG_BANK_MAP_LOGIC .init_map,
    .banked_call K.PRG_BANK_MAP_LOGIC .load_sprites,
    .banked_call K.PRG_BANK_HUD .draw_hud,
    .ppu_on_all,
    .fade_in,
    .music_play (K.SONG_LAYERS + layer) ]

/-- Subsystem `op` hands back the `gameState` it was entered with. -/
def KeepsGameState (env : Env) (op : Op) : Prop :=
  ∀ v v2, env op v = some v2 → v2.gameState = v.gameState

/-- Modelled from the spec: `handle_pause_input` (in `source/menus/pause.c`,
not among the sources) runs its own inner loop "until unpaused or game-over
signaled"; the state it hands back is "RUNNING or GAME_OVER_1 (set internally
by pause handler)". -/
def PauseHandlerContract (K : Consts) (env : Env) : Prop :=
  ∀ v v2, env (.banked_call K.PRG_BANK_PAUSE_MENU .handle_pause_input) v = some v2 →
    v2.gameState = K.GAME_STATE_RUNNING ∨ v2.gameState = K.GAME_STATE_GAME_OVER_1

/-- An environment whose pause handler signals game over from layer 2 on and
resumes otherwise; the crash screen and `reset` keep control; every other
subsystem returns at once, changing nothing. -/
def pauseEnv (K : Consts) : Env := fun op v =>
  if op = .banked_call K.PRG_BANK_PAUSE_MENU .handle_pause_input then
    some { v with gameState :=
      if v.currentLayer < 2 then K.GAME_STATE_RUNNING else K.GAME_STATE_GAME_OVER_1 }
  else if op.fatal then none
  else some v

/-- The operations of the redraw after the pause screen, lines 144-151. -/
def pauseRedrawOps (K : Consts) : List Op :=
  [ .banked_call K.PRG_BANK_MAP_LOGIC .draw_current_map_to_a,
    .ppu_off,
    .banked_call K.PRG_BANK_MAP_LOGIC .init_map,
    .banked_call K.PRG_BANK_HUD .draw_hud,
    .ppu_on_all,
    .fade_in ]

/-- The player variables hold the defaults of `initialize_variables`. -/
def PlayerDefaults (K : Consts) (v : Vars) : Prop :=
  v.playerOverworldPosition = 0 ∧ v.playerHealth = 1 ∧ v.playerMaxHealth = 1 ∧
  v.playerXPosition = 128 <<< K.PLAYER_POSITION_SHIFT ∧
  v.playerYPosition = 128 <<< K.PLAYER_POSITION_SHIFT ∧
  v.playerDirection = K.SPRITE_DIRECTION_DOWN ∧ v.playerKeyCount = 0 ∧
  v.lastPlayerSpriteCollisionId = K.NO_SPRITE_HIT ∧
  v.currentWorldId = K.WORLD_OVERWORLD ∧ v.currentLayer = 0

/-- Operations performed between machine `m` and a later machine `m2`. -/
def opsSince (m m2 : Machine) : List Op := m2.log.drop m.log.length

/-- The banks handed to `set_chr_bank_0`, in order. -/
def bankSelections : List Op → List Nat
  | [] => []
  | .set_chr_bank_0 b :: rest => b :: bankSelections rest
  | _ :: rest => bankSelections rest

/-- The register accesses and busy-loop steps, in order. -/
def scrollAccesses : List Op → List Op
  | [] => []
  | .read_0x2002 :: rest => .read_0x2002 :: scrollAccesses rest
  | .write_0x2005 x :: rest => .write_0x2005 x :: scrollAccesses rest
  | .nop :: rest => .nop :: scrollAccesses rest
  | _ :: rest => scrollAccesses rest

/-- All-zero variables with a chosen `gameState`, layer and frame counter. -/
def Vars.blank (gameState currentLayer frameCount : Nat) : Vars :=
  { playerOverworldPosition := 0, playerHealth := 0, playerMaxHealth := 0,
    playerXPosition := 0, playerYPosition := 0, playerDirection := 0,
    playerKeyCount := 0, lastPlayerSpriteCollisionId := 0, currentWorldId := 0,
    currentLayer := currentLayer, lastCheckpointScreenId := 0,
    lastCheckpointLayer := 0, lastCheckpointKeyCount := 0,
    lastCheckpointPlayerX := 0, lastCheckpointPlayerY := 0, nearestCrack := 0,
    i := 0, lastCheckpointWorldState := fun _ => 0, gameState := gameState,
    everyOtherCycle := 0, playerDeathCount := 0, frameCount := frameCount,
    crackTimer := 0, derp := 0, oam_0x204 := 0, randSeed := 0 }

/-- A sample assignment of the header constants with pairwise different
case labels. -/
def Consts.sample : Consts :=
  { GAME_STATE_SYSTEM_INIT := 255, GAME_STATE_TITLE_DRAW := 0,
    GAME_STATE_TITLE_INPUT := 1, GAME_STATE_POST_TITLE := 2,
    GAME_STATE_RUNNING := 10, GAME_STATE_SCREEN_SCROLL := 20,
    GAME_STATE_SHOWING_TEXT := 30, GAME_STATE_PAUSED := 100,
    GAME_STATE_GAME_OVER := 201, GAME_STATE_GAME_OVER_1 := 202,
    GAME_STATE_CREDITS := 250, PLAYER_POSITION_SHIFT := 4,
    SPRITE_DIRECTION_DOWN := 0, NO_SPRITE_HIT := 255, WORLD_OVERWORLD := 0,
    PRG_BANK_TITLE := 1, PRG_BANK_MAP_LOGIC := 2, PRG_BANK_HUD := 3,
    PRG_BANK_MAP_SPRITES := 4, PRG_BANK_PLAYER_SPRITE := 5,
    PRG_BANK_GAME_TEXT := 6, PRG_BANK_PAUSE_MENU := 7, PRG_BANK_GAME_OVER := 8,
    PRG_BANK_MENU_INPUT_HELPERS := 9, PRG_BANK_CREDITS_MENU := 10,
    SONG_TITLE := 0, SONG_LAYERS := 1, SFX_GAMEOVER := 0, SFX_WIN := 1,
    SFX_CHANNEL_1 := 1, FIRST_ENEMY_SPRITE_OAM_INDEX := 16,
    SPRITE_OFFSCREEN := 254, CHR_BANK_TILES := 0,
    ERR_UNKNOWN_GAME_STATE := "E001",
    ERR_UNKNOWN_GAME_STATE_EXPLANATION := "Unknown game state" }

/-- A machine with all-zero variables but the three given, and an empty log. -/
def sampleMachine (gameState currentLayer frameCount : Nat) : Machine :=
  { vars := Vars.blank gameState currentLayer frameCount, log := [] }

/-- The variables `handle_pause_input` leaves in the `GAME_STATE_PAUSED` case
entered with variables `v`. -/
def pauseHandlerLeaves (K : Consts) (env : Env) (v : Vars) : Vars :=
  after env (.banked_call K.PRG_BANK_PAUSE_MENU .handle_pause_input)
    (after env .fade_in
      (after env (.banked_call K.PRG_BANK_PAUSE_MENU .draw_pause_screen)
        (after env .fade_out v)))

/-- The variables when the `if` of the `GAME_STATE_PAUSED` case is evaluated:
those the second `fade_out` left. -/
def pausedAtTest (K : Consts) (env : Env) (v : Vars) : Vars :=
  after env .fade_out (pauseHandlerLeaves K env v)

/-- The variables when `reset()` is called in the `GAME_STATE_CREDITS` case
entered with variables `v`. -/
def creditsAtReset (K : Consts) (env : Env) (v : Vars) : Vars :=
  after env .fade_out
    (after env (.banked_call K.PRG_BANK_MENU_INPUT_HELPERS .wait_for_start)
      (after env .fade_in
        (after env (.banked_call K.PRG_BANK_CREDITS_MENU .draw_credits_screen)
          (after env .fade_out
            (after env (.banked_call K.PRG_BANK_MENU_INPUT_HELPERS .wait_for_start)
              (after env .fade_in
                (after env (.banked_call K.PRG_BANK_CREDITS_MENU .draw_win_screen)
                  (after env .fade_out v))))))))

/-- The operations of the `GAME_STATE_CREDITS` case before `reset()`, lines 185-199. -/
def creditsOps (K : Consts) : List Op :=
  [ .music_stop,
    .sfx_play K.SFX_WIN K.SFX_CHANNEL_1,
    .fade_out,
    .banked_call K.PRG_BANK_CREDITS_MENU .draw_win_screen,
    .fade_in,
    .banked_call K.PRG_BANK_MENU_INPUT_HELPERS .wait_for_start,
    .fade_out,
    .banked_call K.PRG_BANK_CREDITS_MENU .draw_credits_screen,
    .fade_in,
    .banked_call K.PRG_BANK_MENU_INPUT_HELPERS .wait_for_start,
    .fade_out ]

/-- The operations of the `GAME_STATE_PAUSED` case before its `if`, lines 134-141. -/
def pauseOps (K : Consts) : List Op :=
  [ .fade_out,
    .banked_call K.PRG_BANK_PAUSE_MENU .draw_pause_screen,
    .fade_in,
    .banked_call K.PRG_BANK_PAUSE_MENU .handle_pause_input,
    .fade_out ]

/-- A sample generator: every draw is 201 and the seed counts the draws. -/
def sampleGen (seed : Nat) : Nat × Nat := (201, seed + 1)

/-! ## Facts about `initialize_variables` -/

theorem clearWorldState_spec (fuel : Nat) (v : Vars) (h : v.i + fuel = 64) :
    clearWorldState fuel v =
      { v with i := 64,
               lastCheckpointWorldState :=
                 fun j => if v.i ≤ j.val then 0 else v.lastCheckpointWorldState j } := by
  induction fuel generalizing v with
  | zero =>
    have hi : v.i = 64 := by omega
    cases v
    simp only at hi
    subst hi
    simp only [clearWorldState]
    congr 1
    funext j
    have := j.isLt
    rw [if_neg (by omega)]
  | succ n ih =>
    have hi : v.i < 64 := by omega
    have hmod : (v.i + 1) % 256 = v.i + 1 := Nat.mod_eq_of_lt (by omega)
    rw [clearWorldState, if_pos hi, ih _ (by simp only [hmod]; omega)]
    cases v
    simp only [hmod] at hi ⊢
    congr 1
    funext j
    simp only [setEntry]
    split_ifs <;> first | rfl | omega

theorem initialize_variables_writes_eq (K : Consts) (v : Vars) :
    initialize_variables_writes K v =
      { v with
        playerOverworldPosition := 0, playerHealth := 1, playerMaxHealth := 1,
        playerXPosition := 128 <<< K.PLAYER_POSITION_SHIFT,
        playerYPosition := 128 <<< K.PLAYER_POSITION_SHIFT,
        playerDirection := K.SPRITE_DIRECTION_DOWN, playerKeyCount := 0,
        lastPlayerSpriteCollisionId := K.NO_SPRITE_HIT,
        currentWorldId := K.WORLD_OVERWORLD, currentLayer := 0,
        lastCheckpointScreenId := 0, lastCheckpointLayer := 0,
        lastCheckpointKeyCount := 0,
        lastCheckpointPlayerX := 128 <<< K.PLAYER_POSITION_SHIFT,
        lastCheckpointPlayerY := 128 <<< K.PLAYER_POSITION_SHIFT,
        nearestCrack := 0xff, i := 64,
        lastCheckpointWorldState := fun _ => 0 } := by
  unfold initialize_variables_writes
  simp only []
  rw [clearWorldState_spec 64 _ rfl]
  simp only [Nat.zero_le, if_true]

/-- C1. For every prior state, after `initialize_variables` has run,
`playerHealth = 1`, `playerMaxHealth = 1`, `playerKeyCount = 0`,
`currentWorldId = WORLD_OVERWORLD`, `currentLayer = 0`, and each of the 64
entries of `lastCheckpointWorldState` is 0. -/
theorem initialize_variables_cold_start (K : Consts) (m : Machine) :
    (initialize_variables K m).vars.playerHealth = 1 ∧
    (initialize_variables K m).vars.playerMaxHealth = 1 ∧
    (initialize_variables K m).vars.playerKeyCount = 0 ∧
    (initialize_variables K m).vars.currentWorldId = K.WORLD_OVERWORLD ∧
    (initialize_variables K m).vars.currentLayer = 0 ∧
    ∀ j : Fin 64, (initialize_variables K m).vars.lastCheckpointWorldState j = 0 := by
  simp [initialize_variables, prim, initialize_variables_writes_eq]

/-- C2. `initialize_variables` is an idempotent reset: running it twice leaves
the same variables as running it once, each run issues the one hardware
operation `bank_spr(1)`, and from any two prior states the results agree on
every variable the initializer writes (player position, health, direction and
keys, collision id, world id, layer, the checkpoint fields with the 64-entry
world-state array, `nearestCrack = 0xff`, and the loop counter `i`). -/
theorem initialize_variables_idempotent (K : Consts) :
    (∀ m : Machine,
      (initialize_variables K (initialize_variables K m)).vars
        = (initialize_variables K m).vars ∧
      (initialize_variables K m).log = m.log ++ [Op.bank_spr 1]) ∧
    ∀ m1 m2 : Machine,
      let a := (initialize_variables K m1).vars
      let b := (initialize_variables K m2).vars
      a.playerOverworldPosition = b.playerOverworldPosition ∧
      a.playerHealth = b.playerHealth ∧
      a.playerMaxHealth = b.playerMaxHealth ∧
      a.playerXPosition = b.playerXPosition ∧
      a.playerYPosition = b.playerYPosition ∧
      a.playerDirection = b.playerDirection ∧
      a.playerKeyCount = b.playerKeyCount ∧
      a.lastPlayerSpriteCollisionId = b.lastPlayerSpriteCollisionId ∧
      a.currentWorldId = b.currentWorldId ∧
      a.currentLayer = b.currentLayer ∧
      a.lastCheckpointScreenId = b.lastCheckpointScreenId ∧
      a.lastCheckpointLayer = b.lastCheckpointLayer ∧
      a.lastCheckpointKeyCount = b.lastCheckpointKeyCount ∧
      a.lastCheckpointPlayerX = b.lastCheckpointPlayerX ∧
      a.lastCheckpointPlayerY = b.lastCheckpointPlayerY ∧
      a.lastCheckpointWorldState = b.lastCheckpointWorldState ∧
      a.nearestCrack = 0xff ∧ b.nearestCrack = 0xff ∧
      a.i = b.i := by
  refine ⟨fun m => ⟨?_, ?_⟩, fun m1 m2 => ?_⟩
  · simp [initialize_variables, prim, initialize_variables_writes_eq]
  · simp [initialize_variables, prim]
  · simp [initialize_variables, prim, initialize_variables_writes_eq]

/-! ## Facts about `do_ppu_mess` -/

theorem busyWait_spec (fuel : Nat) (m : Machine) (h : m.vars.derp + fuel = 200) :
    busyWait fuel m =
      { vars := { m.vars with derp := 200 },
        log := m.log ++ List.replicate fuel Op.nop } := by
  induction fuel generalizing m with
  | zero =>
    obtain ⟨v, l⟩ := m
    cases v
    simp only at h
    simp only [busyWait, List.replicate, List.append_nil]
    congr 2
  | succ n ih =>
    have hd : m.vars.derp < 200 := by omega
    have hmod : (m.vars.derp + 1) % 256 = m.vars.derp + 1 := Nat.mod_eq_of_lt (by omega)
    rw [busyWait, if_pos hd, ih _ (by simp only [hmod]; omega)]
    simp [List.replicate_succ]

theorem fakeScroll_eq (gen : Nat → Nat × Nat) (m : Machine) :
    fakeScroll gen m =
      { vars := { m.vars with
                  derp := 200,
                  randSeed := (gen (gen m.vars.randSeed).2).2 },
        log := m.log ++
          ([Op.rand8 ((gen m.vars.randSeed).1 % 256), Op.read_0x2002,
            Op.write_0x2005 ((gen m.vars.randSeed).1 % 256),
            Op.rand8 ((gen (gen m.vars.randSeed).2).1 % 256),
            Op.write_0x2005 ((gen (gen m.vars.randSeed).2).1 % 256)]
           ++ List.replicate 200 Op.nop) } := by
  unfold fakeScroll
  simp only [rand8, prim]
  rw [busyWait_spec 200 _ rfl]
  simp

theorem bankSelections_append (a b : List Op) :
    bankSelections (a ++ b) = bankSelections a ++ bankSelections b := by
  induction a with
  | nil => rfl
  | cons x xs ih => cases x <;> simp [bankSelections, ih]

theorem scrollAccesses_append (a b : List Op) :
    scrollAccesses (a ++ b) = scrollAccesses a ++ scrollAccesses b := by
  induction a with
  | nil => rfl
  | cons x xs ih => cases x <;> simp [scrollAccesses, ih]

theorem bankSelections_replicate_nop (n : Nat) :
    bankSelections (List.replicate n Op.nop) = [] := by
  induction n with
  | zero => rfl
  | succ k ih => simp [List.replicate_succ, bankSelections, ih]

theorem scrollAccesses_replicate_nop (n : Nat) :
    scrollAccesses (List.replicate n Op.nop) = List.replicate n Op.nop := by
  induction n with
  | zero => rfl
  | succ k ih => simp [List.replicate_succ, scrollAccesses, ih]

theorem opsSince_append (m : Machine) (v : Vars) (l : List Op) :
    opsSince m { vars := v, log := m.log ++ l } = l := by
  simp [opsSince]

/-- C3. When `gameState` is not `GAME_STATE_RUNNING`, `do_ppu_mess` is a no-op
for every layer, frame counter and generator state: the machine, that is every
variable (the scratch byte `derp` and the generator seed among them) and the
record of hardware operations and draws, is unchanged. -/
theorem do_ppu_mess_noop (K : Consts) (gen : Nat → Nat × Nat) (m : Machine)
    (h : m.vars.gameState ≠ K.GAME_STATE_RUNNING) :
    do_ppu_mess K gen m = m ∧ opsSince m (do_ppu_mess K gen m) = [] := by
  have e : do_ppu_mess K gen m = m := by
    unfold do_ppu_mess
    rw [if_pos h]
  rw [e]
  exact ⟨rfl, by simp [opsSince]⟩

theorem do_ppu_mess_noop_witness :
    do_ppu_mess Consts.sample (fun s => (s + 201, s + 1))
        { vars := Vars.blank 100 3 0x20, log := [] }
      = { vars := Vars.blank 100 3 0x20, log := [] } ∧
    opsSince { vars := Vars.blank 100 3 0x20, log := [] }
      (do_ppu_mess Consts.sample (fun s => (s + 201, s + 1))
        { vars := Vars.blank 100 3 0x20, log := [] }) = [] :=
  do_ppu_mess_noop Consts.sample (fun s => (s + 201, s + 1))
    { vars := Vars.blank 100 3 0x20, log := [] } (by decide)

theorem glitch3_frame (gen : Nat → Nat × Nat) (m : Machine) :
    (glitch3 gen m).vars.frameCount = m.vars.frameCount ∧
    (glitch3 gen m).vars.currentLayer = m.vars.currentLayer ∧
    (glitch3 gen m).log = m.log ++ opsSince m (glitch3 gen m) ∧
    bankSelections (opsSince m (glitch3 gen m)) = [] := by
  unfold glitch3
  by_cases h1 : m.vars.frameCount &&& 0xf0 < 0x40
  · by_cases h2 : 200 < (gen m.vars.randSeed).1 % 256
    · simp [h1, h2, fakeScroll_eq, rand8, opsSince, bankSelections,
        bankSelections_append, bankSelections_replicate_nop]
    · simp [h1, h2, rand8, opsSince, bankSelections]
  · simp [h1, opsSince, bankSelections]

theorem glitch4_frame (gen : Nat → Nat × Nat) (m : Machine) :
    (glitch4 gen m).vars.frameCount = m.vars.frameCount ∧
    (glitch4 gen m).vars.currentLayer = m.vars.currentLayer ∧
    (glitch4 gen m).log = m.log ++ opsSince m (glitch4 gen m) ∧
    bankSelections (opsSince m (glitch4 gen m)) = [] := by
  unfold glitch4
  by_cases h1 : m.vars.frameCount &&& 0xf0 > 0xb0
  · by_cases h2 : 100 < (gen m.vars.randSeed).1 % 256
    · simp [h1, h2, fakeScroll_eq, rand8, opsSince, bankSelections,
        bankSelections_append, bankSelections_replicate_nop]
    · simp [h1, h2, rand8, opsSince, bankSelections]
  · simp [h1, opsSince, bankSelections]

theorem bank3_frame (K : Consts) (gen : Nat → Nat × Nat) (m : Machine) :
    (bank3 K gen m).vars.currentLayer = m.vars.currentLayer ∧
    (bank3 K gen m).log = m.log ++ opsSince m (bank3 K gen m) ∧
    bankSelections (opsSince m (bank3 K gen m)) =
      [if m.vars.frameCount &&& 0xf0 = 0x20 ∧ (rand8 gen m).1 > 200
       then K.CHR_BANK_TILES + m.vars.currentLayer + 2
       else K.CHR_BANK_TILES + m.vars.currentLayer] := by
  unfold bank3
  by_cases h1 : m.vars.frameCount &&& 0xf0 = 0x20
  · by_cases h2 : 200 < (gen m.vars.randSeed).1 % 256
    · simp [h1, h2, rand8, prim, opsSince, bankSelections]
    · simp [h1, h2, rand8, prim, opsSince, bankSelections]
  · simp [h1, prim, opsSince, bankSelections]

theorem bank4_frame (K : Consts) (gen : Nat → Nat × Nat) (m : Machine) :
    (bank4 K gen m).vars.currentLayer = m.vars.currentLayer ∧
    (bank4 K gen m).log = m.log ++ opsSince m (bank4 K gen m) ∧
    bankSelections (opsSince m (bank4 K gen m)) =
      [if m.vars.frameCount &&& 0xf0 > 0x90 ∧ (rand8 gen m).1 > 100
       then K.CHR_BANK_TILES + m.vars.currentLayer + 2
       else K.CHR_BANK_TILES + m.vars.currentLayer] := by
  unfold bank4
  by_cases h1 : m.vars.frameCount &&& 0xf0 > 0x90
  · by_cases h2 : 100 < (gen m.vars.randSeed).1 % 256
    · simp [h1, h2, rand8, prim, opsSince, bankSelections]
    · simp [h1, h2, rand8, prim, opsSince, bankSelections]
  · simp [h1, prim, opsSince, bankSelections]

theorem do_ppu_mess_layer3_eq (K : Consts) (gen : Nat → Nat × Nat) (m : Machine)
    (hrun : m.vars.gameState = K.GAME_STATE_RUNNING) (hl : m.vars.currentLayer = 3) :
    do_ppu_mess K gen m = bank3 K gen (glitch3 gen m) := by
  have h3 : (bank3 K gen (glitch3 gen m)).vars.currentLayer = 3 := by
    rw [(bank3_frame K gen _).1, (glitch3_frame gen m).2.1, hl]
  simp [do_ppu_mess, hrun, hl, h3]

theorem do_ppu_mess_layer4_eq (K : Consts) (gen : Nat → Nat × Nat) (m : Machine)
    (hrun : m.vars.gameState = K.GAME_STATE_RUNNING) (hl : m.vars.currentLayer = 4) :
    do_ppu_mess K gen m = bank4 K gen (glitch4 gen m) := by
  simp [do_ppu_mess, hrun, hl]

theorem opsSince_trans (m m1 m2 : Machine)
    (h1 : m1.log = m.log ++ opsSince m m1) (h2 : m2.log = m1.log ++ opsSince m1 m2) :
    opsSince m m2 = opsSince m m1 ++ opsSince m1 m2 := by
  have e : m2.log = m.log ++ (opsSince m m1 ++ opsSince m1 m2) := by
    rw [h2, h1, List.append_assoc]
  conv_lhs => rw [opsSince, e]
  simp

theorem layer3_bankSelections (K : Consts) (gen : Nat → Nat × Nat) (m : Machine)
    (hrun : m.vars.gameState = K.GAME_STATE_RUNNING) (hl : m.vars.currentLayer = 3) :
    bankSelections (opsSince m (do_ppu_mess K gen m)) =
      [if m.vars.frameCount &&& 0xf0 = 0x20 ∧ (rand8 gen (glitch3 gen m)).1 > 200
       then K.CHR_BANK_TILES + 3 + 2 else K.CHR_BANK_TILES + 3] := by
  obtain ⟨hf, hc, hl1, hb1⟩ := glitch3_frame gen m
  obtain ⟨-, hl2, hb2⟩ := bank3_frame K gen (glitch3 gen m)
  rw [do_ppu_mess_layer3_eq K gen m hrun hl, opsSince_trans m _ _ hl1 hl2,
    bankSelections_append, hb1, hb2, hf, hc, hl]
  rfl

/-- C4. With `gameState = GAME_STATE_RUNNING` and `currentLayer = 3`, one call of
`do_ppu_mess` hands exactly one bank to `set_chr_bank_0`: the alternate bank
`CHR_BANK_TILES + 3 + 2` if and only if `(frameCount & 0xf0) == 0x20` and the
byte drawn by the bank test (the `rand8()` evaluated once lines 221-232 are
done) is greater than 200, and `CHR_BANK_TILES + 3` otherwise.  So with the
masked counter at `0x20` a draw of 201 gives the alternate bank, a draw of 200
the normal one, and a masked counter of `0x30` gives the normal bank whatever
the generator holds. -/
theorem do_ppu_mess_layer3_bank (K : Consts) (gen : Nat → Nat × Nat) (m : Machine)
    (hrun : m.vars.gameState = K.GAME_STATE_RUNNING) (hl : m.vars.currentLayer = 3) :
    bankSelections (opsSince m (do_ppu_mess K gen m)) =
      [if m.vars.frameCount &&& 0xf0 = 0x20 ∧ (rand8 gen (glitch3 gen m)).1 > 200
       then K.CHR_BANK_TILES + 3 + 2 else K.CHR_BANK_TILES + 3] ∧
    (m.vars.frameCount &&& 0xf0 = 0x20 → (rand8 gen (glitch3 gen m)).1 = 201 →
      bankSelections (opsSince m (do_ppu_mess K gen m)) = [K.CHR_BANK_TILES + 3 + 2]) ∧
    (m.vars.frameCount &&& 0xf0 = 0x20 → (rand8 gen (glitch3 gen m)).1 = 200 →
      bankSelections (opsSince m (do_ppu_mess K gen m)) = [K.CHR_BANK_TILES + 3]) ∧
    (m.vars.frameCount &&& 0xf0 = 0x30 →
      bankSelections (opsSince m (do_ppu_mess K gen m)) = [K.CHR_BANK_TILES + 3]) := by
  have key := layer3_bankSelections K gen m hrun hl
  refine ⟨key, fun h1 h2 => ?_, fun h1 h2 => ?_, fun h1 => ?_⟩
  · rw [key, h1, h2]; simp
  · rw [key, h1, h2]; simp
  · rw [key, h1]; simp

theorem do_ppu_mess_layer3_bank_witness :
    (Vars.blank 10 3 0x25).gameState = Consts.sample.GAME_STATE_RUNNING ∧
    (Vars.blank 10 3 0x25).currentLayer = 3 ∧
    bankSelections (opsSince { vars := Vars.blank 10 3 0x25, log := [] }
      (do_ppu_mess Consts.sample sampleGen { vars := Vars.blank 10 3 0x25, log := [] }))
      = [Consts.sample.CHR_BANK_TILES + 3 + 2] :=
  ⟨rfl, rfl,
   (do_ppu_mess_layer3_bank Consts.sample sampleGen
      { vars := Vars.blank 10 3 0x25, log := [] } rfl rfl).2.1 (by decide) rfl⟩

theorem glitch4_scroll (gen : Nat → Nat × Nat) (m : Machine) :
    scrollAccesses (opsSince m (glitch4 gen m)) =
      if m.vars.frameCount &&& 0xf0 > 0xb0 ∧ (rand8 gen m).1 > 100 then
        [Op.read_0x2002,
         Op.write_0x2005 (rand8 gen (rand8 gen m).2).1,
         Op.write_0x2005 (rand8 gen (rand8 gen (rand8 gen m).2).2).1]
          ++ List.replicate 200 Op.nop
      else [] := by
  unfold glitch4
  by_cases h1 : m.vars.frameCount &&& 0xf0 > 0xb0
  · by_cases h2 : 100 < (gen m.vars.randSeed).1 % 256
    · have e : ∀ (v : Vars) (l : List Op),
          opsSince m { vars := v, log := m.log ++ l } = l := opsSince_append m
      simp only [h1, h2, fakeScroll_eq, rand8, if_true, gt_iff_lt, and_self,
        List.append_assoc, e]
      have hr := scrollAccesses_replicate_nop 200
      generalize List.replicate 200 Op.nop = r at hr ⊢
      simp only [List.cons_append, List.nil_append, scrollAccesses]
      rw [show ([] : List Op).append r = r from rfl, hr]
    · simp [h1, h2, rand8, opsSince, scrollAccesses]
  · simp [h1, opsSince, scrollAccesses]

theorem bank4_scroll (K : Consts) (gen : Nat → Nat × Nat) (m : Machine) :
    scrollAccesses (opsSince m (bank4 K gen m)) = [] := by
  unfold bank4
  by_cases h1 : m.vars.frameCount &&& 0xf0 > 0x90
  · by_cases h2 : 100 < (gen m.vars.randSeed).1 % 256
    · simp [h1, h2, rand8, prim, opsSince, scrollAccesses]
    · simp [h1, h2, rand8, prim, opsSince, scrollAccesses]
  · simp [h1, prim, opsSince, scrollAccesses]

/-- C9. With `gameState = GAME_STATE_RUNNING` and `currentLayer = 4`, one call of
`do_ppu_mess` performs the fake scroll sequence (read of `$2002`, two drawn
bytes written to `$2005`, 200 busy-loop steps) if and only if
`(frameCount & 0xf0) > 0xb0` and the byte drawn by that test is greater than
100, and hands exactly one bank to `set_chr_bank_0`: `CHR_BANK_TILES + 4 + 2`
if and only if `(frameCount & 0xf0) > 0x90` and the byte drawn by the bank test
is greater than 100, `CHR_BANK_TILES + 4` otherwise. -/
theorem do_ppu_mess_layer4 (K : Consts) (gen : Nat → Nat × Nat) (m : Machine)
    (hrun : m.vars.gameState = K.GAME_STATE_RUNNING) (hl : m.vars.currentLayer = 4) :
    scrollAccesses (opsSince m (do_ppu_mess K gen m)) =
      (if m.vars.frameCount &&& 0xf0 > 0xb0 ∧ (rand8 gen m).1 > 100 then
        [Op.read_0x2002,
         Op.write_0x2005 (rand8 gen (rand8 gen m).2).1,
         Op.write_0x2005 (rand8 gen (rand8 gen (rand8 gen m).2).2).1]
          ++ List.replicate 200 Op.nop
       else []) ∧
    bankSelections (opsSince m (do_ppu_mess K gen m)) =
      [if m.vars.frameCount &&& 0xf0 > 0x90 ∧ (rand8 gen (glitch4 gen m)).1 > 100
       then K.CHR_BANK_TILES + 4 + 2 else K.CHR_BANK_TILES + 4] := by
  obtain ⟨hf, hc, hl1, hb1⟩ := glitch4_frame gen m
  obtain ⟨-, hl2, hb2⟩ := bank4_frame K gen (glitch4 gen m)
  rw [do_ppu_mess_layer4_eq K gen m hrun hl, opsSince_trans m _ _ hl1 hl2]
  constructor
  · rw [scrollAccesses_append, bank4_scroll, glitch4_scroll, List.append_nil]
  · rw [bankSelections_append, hb1, hb2, hf, hc, hl]
    rfl

theorem do_ppu_mess_layer4_witness :
    (Vars.blank 10 4 0xc5).gameState = Consts.sample.GAME_STATE_RUNNING ∧
    (Vars.blank 10 4 0xc5).currentLayer = 4 ∧
    scrollAccesses (opsSince { vars := Vars.blank 10 4 0xc5, log := [] }
      (do_ppu_mess Consts.sample sampleGen { vars := Vars.blank 10 4 0xc5, log := [] }))
      = [Op.read_0x2002, Op.write_0x2005 201, Op.write_0x2005 201]
          ++ List.replicate 200 Op.nop ∧
    bankSelections (opsSince { vars := Vars.blank 10 4 0xc5, log := [] }
      (do_ppu_mess Consts.sample sampleGen { vars := Vars.blank 10 4 0xc5, log := [] }))
      = [6] :=
  ⟨rfl, rfl,
   do_ppu_mess_layer4 Consts.sample sampleGen
     { vars := Vars.blank 10 4 0xc5, log := [] } rfl rfl⟩

/-! ## Facts about `main` -/

theorem andThen_block_nil (o : Outcome) : o.andThen (block []) = o := by
  cases o <;> rfl

theorem invoke_eq (env : Env) (hret : Returns env) (op : Op) (hop : op.fatal = false)
    (m : Machine) :
    invoke env op m = .returned { vars := after env op m.vars, log := m.log ++ [op] } := by
  obtain ⟨v2, hv⟩ := hret op m.vars hop
  simp [invoke, after, hv]

theorem mainSwitch_unknown (K : Consts) (env : Env) (m : Machine)
    (h : m.vars.gameState ∉ K.caseLabels) :
    mainSwitch K env m =
      invoke env (.crash_error_use_banked_details K.ERR_UNKNOWN_GAME_STATE
        K.ERR_UNKNOWN_GAME_STATE_EXPLANATION "gameState value" m.vars.gameState) m := by
  simp only [Consts.caseLabels, List.mem_cons, List.mem_singleton, not_or,
    List.not_mem_nil, not_false_eq_true, and_true] at h
  obtain ⟨h1, h2, h3, h4, h5, h6, h7, h8, h9, h10, h11⟩ := h
  simp [mainSwitch, switch, mainCases, jumpTo, jumpToDefault, fallFrom, block,
    Outcome.andThen, Ne.symm h1, Ne.symm h2, Ne.symm h3, Ne.symm h4, Ne.symm h5,
    Ne.symm h6, Ne.symm h7, Ne.symm h8, Ne.symm h9, Ne.symm h10, Ne.symm h11]
  cases invoke env _ m <;> rfl

/-- C6. When `gameState` is none of the case labels, one pass of the loop makes
exactly one call of `crash_error_use_banked_details`, with
`ERR_UNKNOWN_GAME_STATE`, its explanation, the label "gameState value" and the
offending value.  If that call keeps control the pass stops there, `main`
having written nothing but `everyOtherCycle`, and `ppu_wait_nmi` is not
reached; if it returns, the pass goes straight to `ppu_wait_nmi` on the
variables the call left, with no other operation and no write by `main`. -/
theorem unknown_state_is_fatal (K : Consts) (env : Env) (m : Machine)
    (h : m.vars.gameState ∉ K.caseLabels) :
    let crash := Op.crash_error_use_banked_details K.ERR_UNKNOWN_GAME_STATE
      K.ERR_UNKNOWN_GAME_STATE_EXPLANATION "gameState value" m.vars.gameState
    let v0 := { m.vars with
                everyOtherCycle := if m.vars.everyOtherCycle = 0 then 1 else 0 }
    (env crash v0 = none →
      mainLoopBody K env m = .halted { vars := v0, log := m.log ++ [crash] }) ∧
    (∀ v, env crash v0 = some v →
      mainLoopBody K env m =
        invoke env .ppu_wait_nmi { vars := v, log := m.log ++ [crash] }) ∧
    (opsSince m (mainLoopBody K env m).machine = [crash] ∨
      opsSince m (mainLoopBody K env m).machine = [crash, Op.ppu_wait_nmi]) := by
  intro crash v0
  have hsw : mainLoopBody K env m =
      (invoke env crash { vars := v0, log := m.log }).andThen
        (invoke env .ppu_wait_nmi) := by
    have h0 : (toggled m).vars.gameState ∉ K.caseLabels := h
    show (mainSwitch K env (toggled m)).andThen
      (fun m2 => (invoke env Op.ppu_wait_nmi m2).andThen (block [])) = _
    rw [mainSwitch_unknown K env _ h0]
    have e : (fun m2 => (invoke env Op.ppu_wait_nmi m2).andThen (block []))
        = invoke env Op.ppu_wait_nmi := by
      funext m2
      rw [andThen_block_nil]
    rw [e]
    rfl
  have hnone : env crash v0 = none →
      mainLoopBody K env m = .halted { vars := v0, log := m.log ++ [crash] } := by
    intro hn
    rw [hsw]
    simp [invoke, hn, Outcome.andThen]
  have hsome : ∀ v, env crash v0 = some v →
      mainLoopBody K env m =
        invoke env .ppu_wait_nmi { vars := v, log := m.log ++ [crash] } := by
    intro v hv
    rw [hsw]
    simp [invoke, hv, Outcome.andThen]
  refine ⟨hnone, hsome, ?_⟩
  cases hc : env crash v0 with
  | none =>
    left
    rw [hnone hc]
    simp [Outcome.machine, opsSince]
  | some v =>
    right
    rw [hsome v hc]
    unfold invoke
    cases env Op.ppu_wait_nmi v <;> simp [Outcome.machine, opsSince]

theorem unknown_state_is_fatal_witness :
    (Vars.blank 77 0 0).gameState ∉ Consts.sample.caseLabels ∧
    mainLoopBody Consts.sample haltingEnv { vars := Vars.blank 77 0 0, log := [] } =
      .halted
        { vars := { Vars.blank 77 0 0 with everyOtherCycle := 1 },
          log := [Op.crash_error_use_banked_details "E001" "Unknown game state"
                    "gameState value" 77] } :=
  ⟨by decide,
   (unknown_state_is_fatal Consts.sample haltingEnv
      { vars := Vars.blank 77 0 0, log := [] } (by decide)).1 rfl⟩

theorem labels_ne (K : Consts) (hK : K.LabelsDistinct) :
    (K.GAME_STATE_SYSTEM_INIT ≠ K.GAME_STATE_TITLE_DRAW ∧
      K.GAME_STATE_SYSTEM_INIT ≠ K.GAME_STATE_TITLE_INPUT ∧
      K.GAME_STATE_SYSTEM_INIT ≠ K.GAME_STATE_POST_TITLE ∧
      K.GAME_STATE_SYSTEM_INIT ≠ K.GAME_STATE_RUNNING ∧
      K.GAME_STATE_SYSTEM_INIT ≠ K.GAME_STATE_SCREEN_SCROLL ∧
      K.GAME_STATE_SYSTEM_INIT ≠ K.GAME_STATE_SHOWING_TEXT ∧
      K.GAME_STATE_SYSTEM_INIT ≠ K.GAME_STATE_PAUSED ∧
      K.GAME_STATE_SYSTEM_INIT ≠ K.GAME_STATE_GAME_OVER ∧
      K.GAME_STATE_SYSTEM_INIT ≠ K.GAME_STATE_GAME_OVER_1) ∧
    (K.GAME_STATE_TITLE_DRAW ≠ K.GAME_STATE_TITLE_INPUT ∧
      K.GAME_STATE_TITLE_DRAW ≠ K.GAME_STATE_POST_TITLE ∧
      K.GAME_STATE_TITLE_DRAW ≠ K.GAME_STATE_RUNNING ∧
      K.GAME_STATE_TITLE_DRAW ≠ K.GAME_STATE_SCREEN_SCROLL ∧
      K.GAME_STATE_TITLE_DRAW ≠ K.GAME_STATE_SHOWING_TEXT ∧
      K.GAME_STATE_TITLE_DRAW ≠ K.GAME_STATE_PAUSED ∧
      K.GAME_STATE_TITLE_DRAW ≠ K.GAME_STATE_GAME_OVER ∧
      K.GAME_STATE_TITLE_DRAW ≠ K.GAME_STATE_GAME_OVER_1) ∧
    (K.GAME_STATE_TITLE_INPUT ≠ K.GAME_STATE_POST_TITLE ∧
      K.GAME_STATE_TITLE_INPUT ≠ K.GAME_STATE_RUNNING ∧
      K.GAME_STATE_TITLE_INPUT ≠ K.GAME_STATE_SCREEN_SCROLL ∧
      K.GAME_STATE_TITLE_INPUT ≠ K.GAME_STATE_SHOWING_TEXT ∧
      K.GAME_STATE_TITLE_INPUT ≠ K.GAME_STATE_PAUSED ∧
      K.GAME_STATE_TITLE_INPUT ≠ K.GAME_STATE_GAME_OVER ∧
      K.GAME_STATE_TITLE_INPUT ≠ K.GAME_STATE_GAME_OVER_1) ∧
    (K.GAME_STATE_POST_TITLE ≠ K.GAME_STATE_RUNNING ∧
      K.GAME_STATE_POST_TITLE ≠ K.GAME_STATE_SCREEN_SCROLL ∧
      K.GAME_STATE_POST_TITLE ≠ K.GAME_STATE_SHOWING_TEXT ∧
      K.GAME_STATE_POST_TITLE ≠ K.GAME_STATE_PAUSED ∧
      K.GAME_STATE_POST_TITLE ≠ K.GAME_STATE_GAME_OVER ∧
      K.GAME_STATE_POST_TITLE ≠ K.GAME_STATE_GAME_OVER_1) ∧
    (K.GAME_STATE_RUNNING ≠ K.GAME_STATE_SCREEN_SCROLL ∧
      K.GAME_STATE_RUNNING ≠ K.GAME_STATE_SHOWING_TEXT ∧
      K.GAME_STATE_RUNNING ≠ K.GAME_STATE_PAUSED ∧
      K.GAME_STATE_RUNNING ≠ K.GAME_STATE_GAME_OVER ∧
      K.GAME_STATE_RUNNING ≠ K.GAME_STATE_GAME_OVER_1) ∧
    (K.GAME_STATE_SCREEN_SCROLL ≠ K.GAME_STATE_SHOWING_TEXT ∧
      K.GAME_STATE_SCREEN_SCROLL ≠ K.GAME_STATE_PAUSED ∧
      K.GAME_STATE_SCREEN_SCROLL ≠ K.GAME_STATE_GAME_OVER ∧
      K.GAME_STATE_SCREEN_SCROLL ≠ K.GAME_STATE_GAME_OVER_1) ∧
    (K.GAME_STATE_SHOWING_TEXT ≠ K.GAME_STATE_PAUSED ∧
      K.GAME_STATE_SHOWING_TEXT ≠ K.GAME_STATE_GAME_OVER ∧
      K.GAME_STATE_SHOWING_TEXT ≠ K.GAME_STATE_GAME_OVER_1) ∧
    (K.GAME_STATE_PAUSED ≠ K.GAME_STATE_GAME_OVER ∧
      K.GAME_STATE_PAUSED ≠ K.GAME_STATE_GAME_OVER_1) ∧
    K.GAME_STATE_GAME_OVER ≠ K.GAME_STATE_GAME_OVER_1 ∧
    (K.GAME_STATE_SYSTEM_INIT ≠ K.GAME_STATE_CREDITS ∧
      K.GAME_STATE_TITLE_DRAW ≠ K.GAME_STATE_CREDITS ∧
      K.GAME_STATE_TITLE_INPUT ≠ K.GAME_STATE_CREDITS ∧
      K.GAME_STATE_POST_TITLE ≠ K.GAME_STATE_CREDITS ∧
      K.GAME_STATE_RUNNING ≠ K.GAME_STATE_CREDITS ∧
      K.GAME_STATE_SCREEN_SCROLL ≠ K.GAME_STATE_CREDITS ∧
      K.GAME_STATE_SHOWING_TEXT ≠ K.GAME_STATE_CREDITS ∧
      K.GAME_STATE_PAUSED ≠ K.GAME_STATE_CREDITS ∧
      K.GAME_STATE_GAME_OVER ≠ K.GAME_STATE_CREDITS ∧
      K.GAME_STATE_GAME_OVER_1 ≠ K.GAME_STATE_CREDITS) := by
  have hd : K.caseLabels.Nodup := hK
  simp only [Consts.caseLabels, List.nodup_cons, List.mem_cons, List.mem_singleton,
    not_or, List.not_mem_nil, not_false_eq_true, and_true, List.nodup_nil] at hd
  simp only [ne_eq]
  tauto

theorem after_spec (env : Env) (hret : Returns env) (op : Op) (hop : op.fatal = false)
    (v : Vars) : env op v = some (after env op v) := by
  obtain ⟨v2, hv⟩ := hret op v hop
  simp [after, hv]

theorem mainSwitch_SYSTEM_INIT (K : Consts) (env : Env) (hK : K.LabelsDistinct) (m : Machine)
    (hgs : m.vars.gameState = K.GAME_STATE_SYSTEM_INIT) :
    mainSwitch K env m = fallFrom ((mainCases K env).drop 0) m := by
  have hd := labels_ne K hK
  simp only [ne_eq] at hd
  have hj : jumpTo K.GAME_STATE_SYSTEM_INIT (mainCases K env) = some ((mainCases K env).drop 0) := by
    simp only [mainCases, jumpTo, hd, Option.some.injEq, if_false, if_true, List.drop]
  simp only [mainSwitch, switch, hgs, hj]

theorem mainSwitch_TITLE_DRAW (K : Consts) (env : Env) (hK : K.LabelsDistinct) (m : Machine)
    (hgs : m.vars.gameState = K.GAME_STATE_TITLE_DRAW) :
    mainSwitch K env m = fallFrom ((mainCases K env).drop 1) m := by
  have hd := labels_ne K hK
  simp only [ne_eq] at hd
  have hj : jumpTo K.GAME_STATE_TITLE_DRAW (mainCases K env) = some ((mainCases K env).drop 1) := by
    simp only [mainCases, jumpTo, hd, Option.some.injEq, if_false, if_true, List.drop]
  simp only [mainSwitch, switch, hgs, hj]

theorem mainSwitch_TITLE_INPUT (K : Consts) (env : Env) (hK : K.LabelsDistinct) (m : Machine)
    (hgs : m.vars.gameState = K.GAME_STATE_TITLE_INPUT) :
    mainSwitch K env m = fallFrom ((mainCases K env).drop 2) m := by
  have hd := labels_ne K hK
  simp only [ne_eq] at hd
  have hj : jumpTo K.GAME_STATE_TITLE_INPUT (mainCases K env) = some ((mainCases K env).drop 2) := by
    simp only [mainCases, jumpTo, hd, Option.some.injEq, if_false, if_true, List.drop]
  simp only [mainSwitch, switch, hgs, hj]

theorem mainSwitch_POST_TITLE (K : Consts) (env : Env) (hK : K.LabelsDistinct) (m : Machine)
    (hgs : m.vars.gameState = K.GAME_STATE_POST_TITLE) :
    mainSwitch K env m = fallFrom ((mainCases K env).drop 3) m := by
  have hd := labels_ne K hK
  simp only [ne_eq] at hd
  have hj : jumpTo K.GAME_STATE_POST_TITLE (mainCases K env) = some ((mainCases K env).drop 3) := by
    simp only [mainCases, jumpTo, hd, Option.some.injEq, if_false, if_true, List.drop]
  simp only [mainSwitch, switch, hgs, hj]

theorem mainSwitch_RUNNING (K : Consts) (env : Env) (hK : K.LabelsDistinct) (m : Machine)
    (hgs : m.vars.gameState = K.GAME_STATE_RUNNING) :
    mainSwitch K env m = fallFrom ((mainCases K env).drop 4) m := by
  have hd := labels_ne K hK
  simp only [ne_eq] at hd
  have hj : jumpTo K.GAME_STATE_RUNNING (mainCases K env) = some ((mainCases K env).drop 4) := by
    simp only [mainCases, jumpTo, hd, Option.some.injEq, if_false, if_true, List.drop]
  simp only [mainSwitch, switch, hgs, hj]

theorem mainSwitch_SCREEN_SCROLL (K : Consts) (env : Env) (hK : K.LabelsDistinct) (m : Machine)
    (hgs : m.vars.gameState = K.GAME_STATE_SCREEN_SCROLL) :
    mainSwitch K env m = fallFrom ((mainCases K env).drop 5) m := by
  have hd := labels_ne K hK
  simp only [ne_eq] at hd
  have hj : jumpTo K.GAME_STATE_SCREEN_SCROLL (mainCases K env) = some ((mainCases K env).drop 5) := by
    simp only [mainCases, jumpTo, hd, Option.some.injEq, if_false, if_true, List.drop]
  simp only [mainSwitch, switch, hgs, hj]

theorem mainSwitch_SHOWING_TEXT (K : Consts) (env : Env) (hK : K.LabelsDistinct) (m : Machine)
    (hgs : m.vars.gameState = K.GAME_STATE_SHOWING_TEXT) :
    mainSwitch K env m = fallFrom ((mainCases K env).drop 6) m := by
  have hd := labels_ne K hK
  simp only [ne_eq] at hd
  have hj : jumpTo K.GAME_STATE_SHOWING_TEXT (mainCases K env) = some ((mainCases K env).drop 6) := by
    simp only [mainCases, jumpTo, hd, Option.some.injEq, if_false, if_true, List.drop]
  simp only [mainSwitch, switch, hgs, hj]

theorem mainSwitch_PAUSED (K : Consts) (env : Env) (hK : K.LabelsDistinct) (m : Machine)
    (hgs : m.vars.gameState = K.GAME_STATE_PAUSED) :
    mainSwitch K env m = fallFrom ((mainCases K env).drop 7) m := by
  have hd := labels_ne K hK
  simp only [ne_eq] at hd
  have hj : jumpTo K.GAME_STATE_PAUSED (mainCases K env) = some ((mainCases K env).drop 7) := by
    simp only [mainCases, jumpTo, hd, Option.some.injEq, if_false, if_true, List.drop]
  simp only [mainSwitch, switch, hgs, hj]

theorem mainSwitch_GAME_OVER (K : Consts) (env : Env) (hK : K.LabelsDistinct) (m : Machine)
    (hgs : m.vars.gameState = K.GAME_STATE_GAME_OVER) :
    mainSwitch K env m = fallFrom ((mainCases K env).drop 8) m := by
  have hd := labels_ne K hK
  simp only [ne_eq] at hd
  have hj : jumpTo K.GAME_STATE_GAME_OVER (mainCases K env) = some ((mainCases K env).drop 8) := by
    simp only [mainCases, jumpTo, hd, Option.some.injEq, if_false, if_true, List.drop]
  simp only [mainSwitch, switch, hgs, hj]

theorem mainSwitch_GAME_OVER_1 (K : Consts) (env : Env) (hK : K.LabelsDistinct) (m : Machine)
    (hgs : m.vars.gameState = K.GAME_STATE_GAME_OVER_1) :
    mainSwitch K env m = fallFrom ((mainCases K env).drop 9) m := by
  have hd := labels_ne K hK
  simp only [ne_eq] at hd
  have hj : jumpTo K.GAME_STATE_GAME_OVER_1 (mainCases K env) = some ((mainCases K env).drop 9) := by
    simp only [mainCases, jumpTo, hd, Option.some.injEq, if_false, if_true, List.drop]
  simp only [mainSwitch, switch, hgs, hj]

theorem mainSwitch_CREDITS (K : Consts) (env : Env) (hK : K.LabelsDistinct) (m : Machine)
    (hgs : m.vars.gameState = K.GAME_STATE_CREDITS) :
    mainSwitch K env m = fallFrom ((mainCases K env).drop 10) m := by
  have hd := labels_ne K hK
  simp only [ne_eq] at hd
  have hj : jumpTo K.GAME_STATE_CREDITS (mainCases K env)
      = some ((mainCases K env).drop 10) := by
    simp only [mainCases, jumpTo, hd, Option.some.injEq, if_false, if_true, List.drop]
  simp only [mainSwitch, switch, hgs, hj]

theorem toggle_then_switch (K : Consts) (env : Env) (m : Machine) :
    block [toggleCycle, mainSwitch K env] m = mainSwitch K env (toggled m) := by
  show (mainSwitch K env (toggled m)).andThen (block []) = _
  rw [andThen_block_nil]

theorem mainLoopBody_of (K : Consts) (env : Env) (m m1 : Machine)
    (h : block [toggleCycle, mainSwitch K env] m = .returned m1) :
    mainLoopBody K env m = invoke env .ppu_wait_nmi m1 := by
  rw [toggle_then_switch] at h
  show (mainSwitch K env (toggled m)).andThen
    (fun m2 => (invoke env Op.ppu_wait_nmi m2).andThen (block [])) = _
  rw [h]
  show (invoke env Op.ppu_wait_nmi m1).andThen (block []) = _
  rw [andThen_block_nil]

theorem opsSince_of_log (m m1 : Machine) (l : List Op) (h : m1.log = m.log ++ l) :
    opsSince m m1 = l := by
  simp [opsSince, h]

theorem opsSince_invoke (env : Env) (op : Op) (m m1 : Machine) (l : List Op)
    (h : m1.log = m.log ++ l) :
    opsSince m (invoke env op m1).machine = l ++ [op] := by
  unfold invoke
  cases env op m1.vars <;> simp [Outcome.machine, opsSince, h]

theorem fallFrom_GAME_OVER (K : Consts) (env : Env) (m : Machine) :
    fallFrom ((mainCases K env).drop 8) m =
      (invoke env .fade_out m).andThen (fallFrom ((mainCases K env).drop 9)) := by
  simp only [mainCases, List.drop, fallFrom, block, Bool.false_eq_true, if_false]
  cases invoke env Op.fade_out m <;> rfl

theorem run_GAME_OVER_1 (K : Consts) (env : Env) (hret : Returns env) (m : Machine) :
    ∃ m1, fallFrom ((mainCases K env).drop 9) m = .returned m1 ∧
      m1.log = m.log ++ gameOver1Ops K m1.vars.currentLayer ∧
      m1.vars.gameState = K.GAME_STATE_RUNNING := by
  apply Exists.intro
  refine And.intro ?_ (And.intro ?_ ?_)
  · simp only [mainCases, List.drop, fallFrom, block, Outcome.andThen, invoke_eq env hret,
      Op.fatal, primS, prim, assign, if_true]
    rfl
  · simp only [gameOver1Ops, List.append_assoc, List.cons_append, List.nil_append]
  · rfl

theorem run_GAME_OVER (K : Consts) (env : Env) (hret : Returns env) (m : Machine) :
    ∃ m1, fallFrom ((mainCases K env).drop 8) m = .returned m1 ∧
      m1.log = m.log ++ Op.fade_out :: gameOver1Ops K m1.vars.currentLayer ∧
      m1.vars.gameState = K.GAME_STATE_RUNNING := by
  obtain ⟨m1, h1, h2, h3⟩ := run_GAME_OVER_1 K env hret
    { vars := after env .fade_out m.vars, log := m.log ++ [Op.fade_out] }
  refine ⟨m1, ?_, ?_, h3⟩
  · rw [fallFrom_GAME_OVER, invoke_eq env hret Op.fade_out rfl]
    exact h1
  · rw [h2]
    simp

/-- C5. A pass entered with `gameState = GAME_STATE_GAME_OVER` (every subsystem
it calls returning) performs `fade_out` and then, with nothing in between,
exactly the operations of a pass entered with `GAME_STATE_GAME_OVER_1`:
game-over screen, game-over sound, fade in, wait for start, fade out, restore,
load map, redraw, init map, load sprites, HUD, fade in, layer music.  Only then
does `main` call `ppu_wait_nmi`, once, and `gameState` is
`GAME_STATE_RUNNING` at that point. -/
theorem game_over_falls_through (K : Consts) (env : Env) (m : Machine)
    (hK : K.LabelsDistinct) (hret : Returns env)
    (hgs : m.vars.gameState = K.GAME_STATE_GAME_OVER) :
    (∃ m1,
      block [toggleCycle, mainSwitch K env] m = .returned m1 ∧
      opsSince m m1 = Op.fade_out :: gameOver1Ops K m1.vars.currentLayer ∧
      m1.vars.gameState = K.GAME_STATE_RUNNING ∧
      mainLoopBody K env m = invoke env .ppu_wait_nmi m1 ∧
      opsSince m (mainLoopBody K env m).machine =
        Op.fade_out :: gameOver1Ops K m1.vars.currentLayer ++ [Op.ppu_wait_nmi]) ∧
    ∀ m2 : Machine, m2.vars.gameState = K.GAME_STATE_GAME_OVER_1 →
      ∃ m1,
        block [toggleCycle, mainSwitch K env] m2 = .returned m1 ∧
        opsSince m2 m1 = gameOver1Ops K m1.vars.currentLayer ∧
        m1.vars.gameState = K.GAME_STATE_RUNNING ∧
        mainLoopBody K env m2 = invoke env .ppu_wait_nmi m1 ∧
        opsSince m2 (mainLoopBody K env m2).machine =
          gameOver1Ops K m1.vars.currentLayer ++ [Op.ppu_wait_nmi] := by
  constructor
  · obtain ⟨m1, h1, h2, h3⟩ := run_GAME_OVER K env hret (toggled m)
    have hrun : block [toggleCycle, mainSwitch K env] m = .returned m1 := by
      rw [toggle_then_switch, mainSwitch_GAME_OVER K env hK (toggled m) hgs]
      exact h1
    have hbody := mainLoopBody_of K env m m1 hrun
    refine ⟨m1, hrun, opsSince_of_log m m1 _ h2, h3, hbody, ?_⟩
    rw [hbody]
    exact opsSince_invoke env _ m m1 _ h2
  · intro m2 hgs2
    obtain ⟨m1, h1, h2, h3⟩ := run_GAME_OVER_1 K env hret (toggled m2)
    have hrun : block [toggleCycle, mainSwitch K env] m2 = .returned m1 := by
      rw [toggle_then_switch, mainSwitch_GAME_OVER_1 K env hK (toggled m2) hgs2]
      exact h1
    have hbody := mainLoopBody_of K env m2 m1 hrun
    refine ⟨m1, hrun, opsSince_of_log m2 m1 _ h2, h3, hbody, ?_⟩
    rw [hbody]
    exact opsSince_invoke env _ m2 m1 _ h2

theorem idleEnv_returns : Returns idleEnv := fun _ v _ => ⟨v, rfl⟩

theorem game_over_falls_through_witness :
    Consts.sample.LabelsDistinct ∧ Returns idleEnv ∧
    (sampleMachine 201 2 0).vars.gameState = Consts.sample.GAME_STATE_GAME_OVER ∧
    ∃ m1,
      block [toggleCycle, mainSwitch Consts.sample idleEnv] (sampleMachine 201 2 0)
        = .returned m1 ∧
      opsSince (sampleMachine 201 2 0) m1
        = Op.fade_out :: gameOver1Ops Consts.sample m1.vars.currentLayer ∧
      m1.vars.gameState = Consts.sample.GAME_STATE_RUNNING :=
  ⟨by decide, idleEnv_returns, rfl,
   match (game_over_falls_through Consts.sample idleEnv (sampleMachine 201 2 0)
      (by decide) idleEnv_returns rfl).1 with
   | ⟨m1, h1, h2, h3, _⟩ => ⟨m1, h1, h2, h3⟩⟩

theorem after_gameState (env : Env) (op : Op) (hk : KeepsGameState env op) (v : Vars) :
    (after env op v).gameState = v.gameState := by
  unfold after
  cases h : env op v with
  | none => rfl
  | some v2 => exact hk v v2 h

theorem run_SYSTEM_INIT (K : Consts) (env : Env) (m : Machine) :
    fallFrom ((mainCases K env).drop 0) m =
      .returned
        { vars := { initialize_variables_writes K m.vars with
                    gameState := K.GAME_STATE_TITLE_DRAW },
          log := m.log ++ [Op.bank_spr 1] } := by
  simp only [mainCases, List.drop, fallFrom, block, Outcome.andThen, assign,
    initialize_variables, prim, if_true]

theorem run_TITLE_DRAW (K : Consts) (env : Env) (hret : Returns env) (m : Machine) :
    fallFrom ((mainCases K env).drop 1) m =
      .returned
        { vars := after env .fade_in
            (after env (.banked_call K.PRG_BANK_TITLE .draw_title_screen) m.vars),
          log := m.log ++
            [Op.banked_call K.PRG_BANK_TITLE .draw_title_screen,
             Op.music_play K.SONG_TITLE, Op.fade_in] } := by
  simp only [mainCases, List.drop, fallFrom, block, Outcome.andThen, invoke_eq env hret,
    Op.fatal, primS, prim, assign, if_true, List.append_assoc, List.cons_append,
    List.nil_append]

theorem run_TITLE_INPUT (K : Consts) (env : Env) (hret : Returns env) (m : Machine) :
    fallFrom ((mainCases K env).drop 2) m =
      .returned
        { vars := after env (.banked_call K.PRG_BANK_TITLE .handle_title_input) m.vars,
          log := m.log ++ [Op.banked_call K.PRG_BANK_TITLE .handle_title_input] } := by
  simp only [mainCases, List.drop, fallFrom, block, Outcome.andThen, invoke_eq env hret,
    Op.fatal, primS, prim, assign, if_true, List.append_assoc, List.cons_append,
    List.nil_append]

theorem run_POST_TITLE (K : Consts) (env : Env) (hret : Returns env) (m : Machine) :
    ∃ m1, fallFrom ((mainCases K env).drop 3) m = .returned m1 ∧
      m1.vars.gameState = K.GAME_STATE_RUNNING := by
  apply Exists.intro
  refine And.intro ?_ ?_
  · simp only [mainCases, List.drop, fallFrom, block, Outcome.andThen, invoke_eq env hret,
      Op.fatal, primS, prim, assign, set_rand, if_true]
    rfl
  · rfl

theorem run_RUNNING (K : Consts) (env : Env) (hret : Returns env) (m : Machine) :
    fallFrom ((mainCases K env).drop 4) m =
      .returned
        { vars := after env (.banked_call K.PRG_BANK_PLAYER_SPRITE .update_player_sprite)
            (after env (.banked_call K.PRG_BANK_PLAYER_SPRITE .handle_player_movement)
              (after env (.banked_call K.PRG_BANK_MAP_SPRITES .update_map_sprites)
                (after env (.banked_call K.PRG_BANK_HUD .update_hud) m.vars))),
          log := m.log ++
            [Op.banked_call K.PRG_BANK_HUD .update_hud,
             Op.banked_call K.PRG_BANK_MAP_SPRITES .update_map_sprites,
             Op.banked_call K.PRG_BANK_PLAYER_SPRITE .handle_player_movement,
             Op.banked_call K.PRG_BANK_PLAYER_SPRITE .update_player_sprite] } := by
  simp only [mainCases, List.drop, fallFrom, block, Outcome.andThen, invoke_eq env hret,
    Op.fatal, primS, prim, assign, if_true, List.append_assoc, List.cons_append,
    List.nil_append]

theorem run_SCREEN_SCROLL (K : Consts) (env : Env) (hret : Returns env) (m : Machine) :
    fallFrom ((mainCases K env).drop 5) m =
      .returned
        { vars :=
            { after env (.banked_call K.PRG_BANK_MAP_LOGIC .do_scroll_screen_transition)
                { m.vars with crackTimer := 0, oam_0x204 := K.SPRITE_OFFSCREEN % 256 } with
              nearestCrack := 0xff },
          log := m.log ++
            [Op.oam_hide_rest K.FIRST_ENEMY_SPRITE_OAM_INDEX,
             Op.banked_call K.PRG_BANK_MAP_LOGIC .do_scroll_screen_transition] } := by
  simp only [mainCases, List.drop, fallFrom, block, Outcome.andThen, invoke_eq env hret,
    Op.fatal, primS, prim, assign, if_true, List.append_assoc, List.cons_append,
    List.nil_append]

theorem run_SHOWING_TEXT (K : Consts) (env : Env) (hret : Returns env) (m : Machine) :
    ∃ m1, fallFrom ((mainCases K env).drop 6) m = .returned m1 ∧
      m1.vars.gameState = K.GAME_STATE_RUNNING := by
  apply Exists.intro
  refine And.intro ?_ ?_
  · simp only [mainCases, List.drop, fallFrom, block, Outcome.andThen, invoke_eq env hret,
      Op.fatal, primS, prim, assign, if_true]
    rfl
  · rfl

theorem run_PAUSED (K : Consts) (env : Env) (hret : Returns env) (m : Machine) :
    fallFrom ((mainCases K env).drop 7) m =
      .returned
        (if (pausedAtTest K env m.vars).gameState = K.GAME_STATE_GAME_OVER_1 then
          { vars := pausedAtTest K env m.vars, log := m.log ++ pauseOps K }
        else
          { vars := after env .fade_in
              (after env (.banked_call K.PRG_BANK_HUD .draw_hud)
                (after env (.banked_call K.PRG_BANK_MAP_LOGIC .init_map)
                  (after env (.banked_call K.PRG_BANK_MAP_LOGIC .draw_current_map_to_a)
                    (pausedAtTest K env m.vars)))),
            log := m.log ++ (pauseOps K ++ pauseRedrawOps K) }) := by
  by_cases h : (pausedAtTest K env m.vars).gameState = K.GAME_STATE_GAME_OVER_1
  · rw [if_pos h]
    unfold pausedAtTest pauseHandlerLeaves at h
    simp only [mainCases, List.drop, fallFrom, block, Outcome.andThen, invoke_eq env hret,
      Op.fatal, primS, prim, assign, ifThen, if_true, List.append_assoc, List.cons_append,
      List.nil_append, h, bne_self_eq_false, Bool.false_eq_true, if_false, pausedAtTest,
      pauseHandlerLeaves, pauseOps]
  · rw [if_neg h]
    unfold pausedAtTest pauseHandlerLeaves at h
    have hb : ((after env Op.fade_out
        (after env (Op.banked_call K.PRG_BANK_PAUSE_MENU Proc.handle_pause_input)
          (after env Op.fade_in
            (after env (Op.banked_call K.PRG_BANK_PAUSE_MENU Proc.draw_pause_screen)
              (after env Op.fade_out m.vars))))).gameState
        != K.GAME_STATE_GAME_OVER_1) = true := by
      simpa using h
    simp only [mainCases, List.drop, fallFrom, block, Outcome.andThen, invoke_eq env hret,
      Op.fatal, primS, prim, assign, ifThen, if_true, List.append_assoc, List.cons_append,
      List.nil_append, hb, pausedAtTest, pauseHandlerLeaves, pauseOps, pauseRedrawOps]

theorem pass_eq (K : Consts) (env : Env) (m : Machine) (n : Nat)
    (hsw : mainSwitch K env (toggled m) = fallFrom ((mainCases K env).drop n) (toggled m)) :
    block [toggleCycle, mainSwitch K env] m
      = fallFrom ((mainCases K env).drop n) (toggled m) := by
  rw [toggle_then_switch, hsw]

/-- C10. A pass entered with `gameState = GAME_STATE_PAUSED` always performs
`fade_out`, `draw_pause_screen`, `fade_in`, `handle_pause_input`, `fade_out`,
in that order; the redraw (`draw_current_map_to_a`, `ppu_off`, `init_map`,
`draw_hud`, `ppu_on_all`, `fade_in`) follows if and only if `gameState` is not
`GAME_STATE_GAME_OVER_1` after `handle_pause_input` returns; and the state at
the end of the pass is `GAME_STATE_RUNNING` or `GAME_STATE_GAME_OVER_1`.  The
pause handler is taken with its documented contract, and the subsystems called
after it (`fade_out`, the redraw, `ppu_wait_nmi`) as handing `gameState` back
untouched. -/
theorem paused_pass (K : Consts) (env : Env) (m : Machine)
    (hK : K.LabelsDistinct) (hret : Returns env)
    (hpause : PauseHandlerContract K env)
    (hkeep : ∀ op ∈ Op.fade_out :: Op.ppu_wait_nmi :: pauseRedrawOps K,
      KeepsGameState env op)
    (hgs : m.vars.gameState = K.GAME_STATE_PAUSED) :
    ∃ m1,
      block [toggleCycle, mainSwitch K env] m = .returned m1 ∧
      opsSince m m1 =
        pauseOps K ++
          (if (pauseHandlerLeaves K env (toggled m).vars).gameState
                ≠ K.GAME_STATE_GAME_OVER_1
           then pauseRedrawOps K else []) ∧
      (m1.vars.gameState = K.GAME_STATE_RUNNING ∨
        m1.vars.gameState = K.GAME_STATE_GAME_OVER_1) ∧
      mainLoopBody K env m = invoke env .ppu_wait_nmi m1 ∧
      ((mainLoopBody K env m).machine.vars.gameState = K.GAME_STATE_RUNNING ∨
        (mainLoopBody K env m).machine.vars.gameState = K.GAME_STATE_GAME_OVER_1) := by
  have hleaves : (pauseHandlerLeaves K env (toggled m).vars).gameState
        = K.GAME_STATE_RUNNING ∨
      (pauseHandlerLeaves K env (toggled m).vars).gameState
        = K.GAME_STATE_GAME_OVER_1 :=
    hpause _ _
      (after_spec env hret (.banked_call K.PRG_BANK_PAUSE_MENU .handle_pause_input) rfl _)
  have htest : (pausedAtTest K env (toggled m).vars).gameState
      = (pauseHandlerLeaves K env (toggled m).vars).gameState :=
    after_gameState env _ (hkeep _ (by simp [pauseRedrawOps])) _
  have hrun := pass_eq K env m 7 (mainSwitch_PAUSED K env hK (toggled m) hgs)
  rw [run_PAUSED K env hret] at hrun
  have hwait : ∀ m1 : Machine,
      (m1.vars.gameState = K.GAME_STATE_RUNNING ∨
        m1.vars.gameState = K.GAME_STATE_GAME_OVER_1) →
      ((invoke env .ppu_wait_nmi m1).machine.vars.gameState = K.GAME_STATE_RUNNING ∨
        (invoke env .ppu_wait_nmi m1).machine.vars.gameState
          = K.GAME_STATE_GAME_OVER_1) := by
    intro m1 h1
    rw [invoke_eq env hret Op.ppu_wait_nmi rfl]
    simp only [Outcome.machine]
    rw [after_gameState env _ (hkeep _ (by simp [pauseRedrawOps]))]
    exact h1
  by_cases h : (pausedAtTest K env (toggled m).vars).gameState = K.GAME_STATE_GAME_OVER_1
  · rw [if_pos h] at hrun
    have hend : (pausedAtTest K env (toggled m).vars).gameState = K.GAME_STATE_RUNNING ∨
        (pausedAtTest K env (toggled m).vars).gameState = K.GAME_STATE_GAME_OVER_1 :=
      Or.inr h
    refine ⟨_, hrun, ?_, hend, mainLoopBody_of K env m _ hrun, ?_⟩
    · rw [if_neg (by rw [← htest]; exact not_not.mpr h), List.append_nil]
      exact opsSince_of_log m _ _ rfl
    · rw [mainLoopBody_of K env m _ hrun]
      exact hwait _ hend
  · rw [if_neg h] at hrun
    have hend :
        (after env .fade_in
          (after env (.banked_call K.PRG_BANK_HUD .draw_hud)
            (after env (.banked_call K.PRG_BANK_MAP_LOGIC .init_map)
              (after env (.banked_call K.PRG_BANK_MAP_LOGIC .draw_current_map_to_a)
                (pausedAtTest K env (toggled m).vars))))).gameState
          = K.GAME_STATE_RUNNING := by
      rw [after_gameState env _ (hkeep _ (by simp [pauseRedrawOps])),
        after_gameState env _ (hkeep _ (by simp [pauseRedrawOps])),
        after_gameState env _ (hkeep _ (by simp [pauseRedrawOps])),
        after_gameState env _ (hkeep _ (by simp [pauseRedrawOps]))]
      rw [htest] at h ⊢
      exact hleaves.resolve_right h
    refine ⟨_, hrun, ?_, Or.inl hend, mainLoopBody_of K env m _ hrun, ?_⟩
    · rw [if_pos (by rw [← htest]; exact h)]
      exact opsSince_of_log m _ _ rfl
    · rw [mainLoopBody_of K env m _ hrun]
      exact hwait _ (Or.inl hend)

theorem pauseEnv_returns (K : Consts) : Returns (pauseEnv K) := by
  intro op v hop
  unfold pauseEnv
  by_cases h1 : op = .banked_call K.PRG_BANK_PAUSE_MENU .handle_pause_input
  · rw [if_pos h1]
    exact ⟨_, rfl⟩
  · rw [if_neg h1, hop]
    exact ⟨v, rfl⟩

theorem pauseEnv_contract (K : Consts) : PauseHandlerContract K (pauseEnv K) := by
  intro v v2 h
  simp only [pauseEnv, if_true, Option.some.injEq] at h
  subst h
  by_cases hl : v.currentLayer < 2
  · left; simp [hl]
  · right; simp [hl]

theorem pauseEnv_keeps (K : Consts) (op : Op)
    (hop : op ≠ .banked_call K.PRG_BANK_PAUSE_MENU .handle_pause_input) :
    KeepsGameState (pauseEnv K) op := by
  intro v v2 h
  unfold pauseEnv at h
  rw [if_neg hop] at h
  by_cases hf : op.fatal = true
  · rw [if_pos hf] at h
    cases h
  · rw [if_neg hf] at h
    cases h
    rfl

theorem paused_pass_witness :
    Consts.sample.LabelsDistinct ∧ Returns (pauseEnv Consts.sample) ∧
    PauseHandlerContract Consts.sample (pauseEnv Consts.sample) ∧
    (sampleMachine 100 0 0).vars.gameState = Consts.sample.GAME_STATE_PAUSED ∧
    ∃ m1,
      block [toggleCycle, mainSwitch Consts.sample (pauseEnv Consts.sample)]
        (sampleMachine 100 0 0) = .returned m1 ∧
      (m1.vars.gameState = Consts.sample.GAME_STATE_RUNNING ∨
        m1.vars.gameState = Consts.sample.GAME_STATE_GAME_OVER_1) :=
  ⟨by decide, pauseEnv_returns _, pauseEnv_contract _, rfl,
   match paused_pass Consts.sample (pauseEnv Consts.sample) (sampleMachine 100 0 0)
      (by decide) (pauseEnv_returns _) (pauseEnv_contract _)
      (fun op hop => pauseEnv_keeps _ op (by
        intro h
        rw [h] at hop
        simp [pauseRedrawOps] at hop)) rfl with
   | ⟨m1, h1, _, h3, _⟩ => ⟨m1, h1, h3⟩⟩

/-- C7 as written fails: from `GAME_STATE_SYSTEM_INIT`, with every subsystem
returning at once, one full pass ends in `GAME_STATE_TITLE_DRAW` having
performed only `bank_spr(1)` and `ppu_wait_nmi`; neither
`music_play(SONG_TITLE)` nor `fade_in` has been called. -/
theorem title_not_started_after_one_pass :
    (sampleMachine 255 0 0).vars.gameState = Consts.sample.GAME_STATE_SYSTEM_INIT ∧
    (mainLoopBody Consts.sample idleEnv (sampleMachine 255 0 0)).machine.vars.gameState
      = Consts.sample.GAME_STATE_TITLE_DRAW ∧
    opsSince (sampleMachine 255 0 0)
        (mainLoopBody Consts.sample idleEnv (sampleMachine 255 0 0)).machine
      = [Op.bank_spr 1, Op.ppu_wait_nmi] ∧
    Op.music_play Consts.sample.SONG_TITLE ∉
      opsSince (sampleMachine 255 0 0)
        (mainLoopBody Consts.sample idleEnv (sampleMachine 255 0 0)).machine ∧
    Op.fade_in ∉
      opsSince (sampleMachine 255 0 0)
        (mainLoopBody Consts.sample idleEnv (sampleMachine 255 0 0)).machine := by
  have h : opsSince (sampleMachine 255 0 0)
      (mainLoopBody Consts.sample idleEnv (sampleMachine 255 0 0)).machine
      = [Op.bank_spr 1, Op.ppu_wait_nmi] := rfl
  refine ⟨rfl, rfl, h, ?_, ?_⟩
  · rw [h]; decide
  · rw [h]; decide

theorem mainLoop_one (K : Consts) (env : Env) (m : Machine) :
    mainLoop K env 1 m = mainLoopBody K env m := by
  show (mainLoopBody K env m).andThen (fun m2 => Outcome.returned m2) = _
  cases mainLoopBody K env m <;> rfl

theorem main_one (K : Consts) (env : Env) (hret : Returns env) (m : Machine) :
    main K env 1 m =
      mainLoopBody K env
        { vars := { after env .fade_out_instant m.vars with
                    gameState := K.GAME_STATE_SYSTEM_INIT },
          log := m.log ++ [Op.fade_out_instant] } := by
  show (invoke env Op.fade_out_instant m).andThen
    (fun m2 => (assign (fun v => { v with gameState := K.GAME_STATE_SYSTEM_INIT }) m2).andThen
      (fun m3 => (mainLoop K env 1 m3).andThen (block []))) = _
  rw [invoke_eq env hret Op.fade_out_instant rfl]
  show (mainLoop K env 1 _).andThen (block []) = _
  rw [andThen_block_nil, mainLoop_one]

theorem pass_SYSTEM_INIT (K : Consts) (env : Env) (hK : K.LabelsDistinct) (m : Machine)
    (hgs : m.vars.gameState = K.GAME_STATE_SYSTEM_INIT) :
    block [toggleCycle, mainSwitch K env] m =
      .returned
        { vars := { initialize_variables_writes K (toggled m).vars with
                    gameState := K.GAME_STATE_TITLE_DRAW },
          log := m.log ++ [Op.bank_spr 1] } := by
  rw [pass_eq K env m 0 (mainSwitch_SYSTEM_INIT K env hK (toggled m) hgs), run_SYSTEM_INIT]
  rfl

theorem playerDefaults_init (K : Consts) (v : Vars) (g : Nat) :
    PlayerDefaults K { initialize_variables_writes K v with gameState := g } := by
  simp [PlayerDefaults, initialize_variables_writes_eq]

/-- C7, amended. From `GAME_STATE_SYSTEM_INIT` (the state `main` sets on
entry) one full pass runs the initializer and sets `GAME_STATE_TITLE_DRAW`: when
the pass reaches its frame wait the player variables hold the initializer's
defaults, and the pass has performed `bank_spr(1)` and `ppu_wait_nmi` only, so
no music or fade yet.  The title music and the fade-in come with the pass that
is entered in `GAME_STATE_TITLE_DRAW`: it performs `draw_title_screen`,
`music_play(SONG_TITLE)`, `fade_in`, then `ppu_wait_nmi`. -/
theorem system_init_then_title (K : Consts) (env : Env) (m : Machine)
    (hK : K.LabelsDistinct) (hret : Returns env)
    (hgs : m.vars.gameState = K.GAME_STATE_SYSTEM_INIT) :
    (∃ m1,
      block [toggleCycle, mainSwitch K env] m = .returned m1 ∧
      opsSince m m1 = [Op.bank_spr 1] ∧
      m1.vars.gameState = K.GAME_STATE_TITLE_DRAW ∧
      PlayerDefaults K m1.vars ∧
      mainLoopBody K env m = invoke env .ppu_wait_nmi m1 ∧
      opsSince m (mainLoopBody K env m).machine = [Op.bank_spr 1, Op.ppu_wait_nmi]) ∧
    (∀ m2 : Machine, m2.vars.gameState = K.GAME_STATE_TITLE_DRAW →
      opsSince m2 (mainLoopBody K env m2).machine =
        [Op.banked_call K.PRG_BANK_TITLE .draw_title_screen,
         Op.music_play K.SONG_TITLE, Op.fade_in, Op.ppu_wait_nmi]) ∧
    (∀ m0 : Machine,
      opsSince m0 (main K env 1 m0).machine =
        [Op.fade_out_instant, Op.bank_spr 1, Op.ppu_wait_nmi]) := by
  refine ⟨?_, ?_, ?_⟩
  · have hrun := pass_SYSTEM_INIT K env hK m hgs
    refine ⟨_, hrun, opsSince_of_log m _ _ rfl, rfl, playerDefaults_init K _ _,
      mainLoopBody_of K env m _ hrun, ?_⟩
    rw [mainLoopBody_of K env m _ hrun]
    exact opsSince_invoke env _ m _ [Op.bank_spr 1] rfl
  · intro m2 hgs2
    have hrun := pass_eq K env m2 1 (mainSwitch_TITLE_DRAW K env hK (toggled m2) hgs2)
    rw [run_TITLE_DRAW K env hret] at hrun
    rw [mainLoopBody_of K env m2 _ hrun]
    exact opsSince_invoke env _ m2 _
      [Op.banked_call K.PRG_BANK_TITLE .draw_title_screen,
       Op.music_play K.SONG_TITLE, Op.fade_in] rfl
  · intro m0
    rw [main_one K env hret]
    have hrun := pass_SYSTEM_INIT K env hK
      { vars := { after env .fade_out_instant m0.vars with
                  gameState := K.GAME_STATE_SYSTEM_INIT },
        log := m0.log ++ [Op.fade_out_instant] } rfl
    rw [mainLoopBody_of K env _ _ hrun]
    exact opsSince_invoke env _ m0 _ [Op.fade_out_instant, Op.bank_spr 1] (by simp)

theorem system_init_then_title_witness :
    Consts.sample.LabelsDistinct ∧ Returns idleEnv ∧
    (sampleMachine 255 0 0).vars.gameState = Consts.sample.GAME_STATE_SYSTEM_INIT ∧
    opsSince (sampleMachine 0 0 0)
        (mainLoopBody Consts.sample idleEnv (sampleMachine 0 0 0)).machine =
      [Op.banked_call Consts.sample.PRG_BANK_TITLE .draw_title_screen,
       Op.music_play Consts.sample.SONG_TITLE, Op.fade_in, Op.ppu_wait_nmi] :=
  ⟨by decide, idleEnv_returns, rfl,
   (system_init_then_title Consts.sample idleEnv (sampleMachine 255 0 0)
      (by decide) idleEnv_returns rfl).2.1 (sampleMachine 0 0 0) rfl⟩

theorem run_CREDITS (K : Consts) (env : Env) (hret : Returns env) (m : Machine) :
    fallFrom ((mainCases K env).drop 10) m =
      invoke env .reset
        { vars := creditsAtReset K env m.vars, log := m.log ++ creditsOps K } := by
  simp only [mainCases, List.drop, fallFrom, block, Outcome.andThen, invoke_eq env hret,
    Op.fatal, primS, prim, if_true, List.append_assoc, List.cons_append,
    List.nil_append, creditsAtReset, creditsOps]
  generalize invoke env Op.reset _ = o
  cases o <;> rfl

theorem pass_CREDITS_keeps (K : Consts) (env : Env) (hK : K.LabelsDistinct)
    (hret : Returns env) (m : Machine)
    (hgs : m.vars.gameState = K.GAME_STATE_CREDITS) :
    opsSince m (block [toggleCycle, mainSwitch K env] m).machine
        = creditsOps K ++ [Op.reset] ∧
      ((∀ op ∈ creditsOps K ++ [Op.reset], KeepsGameState env op) →
        (block [toggleCycle, mainSwitch K env] m).machine.vars.gameState
          = m.vars.gameState) := by
  rw [pass_eq K env m 10 (mainSwitch_CREDITS K env hK (toggled m) hgs),
    run_CREDITS K env hret]
  refine ⟨opsSince_invoke env _ m _ (creditsOps K) rfl, fun hk => ?_⟩
  have ha : ∀ op ∈ creditsOps K ++ [Op.reset], ∀ v,
      (after env op v).gameState = v.gameState :=
    fun op hop v => after_gameState env op (hk op hop) v
  have hc : (creditsAtReset K env (toggled m).vars).gameState = m.vars.gameState := by
    unfold creditsAtReset
    rw [ha _ (by simp [creditsOps]), ha _ (by simp [creditsOps]),
      ha _ (by simp [creditsOps]), ha _ (by simp [creditsOps]),
      ha _ (by simp [creditsOps]), ha _ (by simp [creditsOps]),
      ha _ (by simp [creditsOps]), ha _ (by simp [creditsOps]),
      ha _ (by simp [creditsOps])]
    rfl
  unfold invoke
  cases h : env Op.reset (creditsAtReset K env (toggled m).vars) with
  | none => exact hc
  | some v2 =>
    simp only [Outcome.machine]
    rw [hk Op.reset (by simp) _ _ h]
    exact hc

theorem pass_keeps_gameState (K : Consts) (env : Env) (hK : K.LabelsDistinct)
    (hret : Returns env) (m : Machine)
    (hgs : m.vars.gameState = K.GAME_STATE_TITLE_DRAW ∨
      m.vars.gameState = K.GAME_STATE_TITLE_INPUT ∨
      m.vars.gameState = K.GAME_STATE_RUNNING ∨
      m.vars.gameState = K.GAME_STATE_SCREEN_SCROLL ∨
      m.vars.gameState = K.GAME_STATE_PAUSED) :
    ∃ m1, block [toggleCycle, mainSwitch K env] m = .returned m1 ∧
      ((∀ op ∈ opsSince m m1, KeepsGameState env op) →
        m1.vars.gameState = m.vars.gameState) := by
  rcases hgs with h | h | h | h | h
  · have hrun := pass_eq K env m 1 (mainSwitch_TITLE_DRAW K env hK (toggled m) h)
    rw [run_TITLE_DRAW K env hret] at hrun
    refine ⟨_, hrun, fun hk => ?_⟩
    rw [opsSince_of_log m _ _ rfl] at hk
    show (after env _ (after env _ _)).gameState = _
    rw [after_gameState env _ (hk _ (by simp)), after_gameState env _ (hk _ (by simp))]
    rfl
  · have hrun := pass_eq K env m 2 (mainSwitch_TITLE_INPUT K env hK (toggled m) h)
    rw [run_TITLE_INPUT K env hret] at hrun
    refine ⟨_, hrun, fun hk => ?_⟩
    rw [opsSince_of_log m _ _ rfl] at hk
    show (after env _ _).gameState = _
    rw [after_gameState env _ (hk _ (by simp))]
    rfl
  · have hrun := pass_eq K env m 4 (mainSwitch_RUNNING K env hK (toggled m) h)
    rw [run_RUNNING K env hret] at hrun
    refine ⟨_, hrun, fun hk => ?_⟩
    rw [opsSince_of_log m _ _ rfl] at hk
    show (after env _ (after env _ (after env _ (after env _ _)))).gameState = _
    rw [after_gameState env _ (hk _ (by simp)), after_gameState env _ (hk _ (by simp)),
      after_gameState env _ (hk _ (by simp)), after_gameState env _ (hk _ (by simp))]
    rfl
  · have hrun := pass_eq K env m 5 (mainSwitch_SCREEN_SCROLL K env hK (toggled m) h)
    rw [run_SCREEN_SCROLL K env hret] at hrun
    refine ⟨_, hrun, fun hk => ?_⟩
    rw [opsSince_of_log m _ _ rfl] at hk
    show (after env _ _).gameState = _
    rw [after_gameState env _ (hk _ (by simp))]
    rfl
  · have hrun := pass_eq K env m 7 (mainSwitch_PAUSED K env hK (toggled m) h)
    rw [run_PAUSED K env hret] at hrun
    by_cases ht : (pausedAtTest K env (toggled m).vars).gameState
        = K.GAME_STATE_GAME_OVER_1
    · rw [if_pos ht] at hrun
      refine ⟨_, hrun, fun hk => ?_⟩
      rw [opsSince_of_log m _ _ rfl] at hk
      show (pausedAtTest K env (toggled m).vars).gameState = _
      unfold pausedAtTest pauseHandlerLeaves
      rw [after_gameState env _ (hk _ (by simp [pauseOps])),
        after_gameState env _ (hk _ (by simp [pauseOps])),
        after_gameState env _ (hk _ (by simp [pauseOps])),
        after_gameState env _ (hk _ (by simp [pauseOps])),
        after_gameState env _ (hk _ (by simp [pauseOps]))]
      rfl
    · rw [if_neg ht] at hrun
      refine ⟨_, hrun, fun hk => ?_⟩
      rw [opsSince_of_log m _ _ rfl] at hk
      show (after env _ (after env _ (after env _ (after env _
        (pausedAtTest K env (toggled m).vars))))).gameState = _
      unfold pausedAtTest pauseHandlerLeaves
      rw [after_gameState env _ (hk _ (by simp [pauseOps, pauseRedrawOps])),
        after_gameState env _ (hk _ (by simp [pauseOps, pauseRedrawOps])),
        after_gameState env _ (hk _ (by simp [pauseOps, pauseRedrawOps])),
        after_gameState env _ (hk _ (by simp [pauseOps, pauseRedrawOps])),
        after_gameState env _ (hk _ (by simp [pauseOps, pauseRedrawOps])),
        after_gameState env _ (hk _ (by simp [pauseOps, pauseRedrawOps])),
        after_gameState env _ (hk _ (by simp [pauseOps, pauseRedrawOps])),
        after_gameState env _ (hk _ (by simp [pauseOps, pauseRedrawOps])),
        after_gameState env _ (hk _ (by simp [pauseOps, pauseRedrawOps]))]
      rfl

/-- C8. The writes of the dispatch to `gameState`, case label by case label.
Entered in `GAME_STATE_SYSTEM_INIT` the switch ends in
`GAME_STATE_TITLE_DRAW`; entered in `POST_TITLE`, `SHOWING_TEXT`, `GAME_OVER` or
`GAME_OVER_1` it ends in `GAME_STATE_RUNNING`; both whatever the subsystems did
to `gameState` on the way.  Entered in `TITLE_DRAW`, `TITLE_INPUT`, `RUNNING`,
`SCREEN_SCROLL` or `PAUSED`, `main` writes no `gameState`: the variables at the
end of the switch are those the last subsystem called handed back (with
`nearestCrack` set in `SCREEN_SCROLL`), and `gameState` is unchanged when the
subsystems called did not touch it.  The remaining label, `CREDITS`, runs up to `reset()`
without a write to `gameState` either. -/
theorem dispatch_transitions (K : Consts) (env : Env) (m : Machine)
    (hK : K.LabelsDistinct) (hret : Returns env) :
    (m.vars.gameState = K.GAME_STATE_SYSTEM_INIT →
      ∃ m1, block [toggleCycle, mainSwitch K env] m = .returned m1 ∧
        m1.vars.gameState = K.GAME_STATE_TITLE_DRAW) ∧
    (m.vars.gameState = K.GAME_STATE_POST_TITLE ∨
      m.vars.gameState = K.GAME_STATE_SHOWING_TEXT ∨
      m.vars.gameState = K.GAME_STATE_GAME_OVER ∨
      m.vars.gameState = K.GAME_STATE_GAME_OVER_1 →
      ∃ m1, block [toggleCycle, mainSwitch K env] m = .returned m1 ∧
        m1.vars.gameState = K.GAME_STATE_RUNNING) ∧
    (m.vars.gameState = K.GAME_STATE_TITLE_DRAW →
      ∃ m1 v, block [toggleCycle, mainSwitch K env] m = .returned m1 ∧
        env .fade_in v = some m1.vars) ∧
    (m.vars.gameState = K.GAME_STATE_TITLE_INPUT →
      ∃ m1 v, block [toggleCycle, mainSwitch K env] m = .returned m1 ∧
        env (.banked_call K.PRG_BANK_TITLE .handle_title_input) v = some m1.vars) ∧
    (m.vars.gameState = K.GAME_STATE_RUNNING →
      ∃ m1 v, block [toggleCycle, mainSwitch K env] m = .returned m1 ∧
        env (.banked_call K.PRG_BANK_PLAYER_SPRITE .update_player_sprite) v
          = some m1.vars) ∧
    (m.vars.gameState = K.GAME_STATE_SCREEN_SCROLL →
      ∃ m1 v v2, block [toggleCycle, mainSwitch K env] m = .returned m1 ∧
        env (.banked_call K.PRG_BANK_MAP_LOGIC .do_scroll_screen_transition) v = some v2 ∧
        m1.vars = { v2 with nearestCrack := 0xff }) ∧
    (m.vars.gameState = K.GAME_STATE_PAUSED →
      ∃ m1 v, block [toggleCycle, mainSwitch K env] m = .returned m1 ∧
        (env .fade_out v = some m1.vars ∨ env .fade_in v = some m1.vars)) ∧
    (m.vars.gameState = K.GAME_STATE_TITLE_DRAW ∨
      m.vars.gameState = K.GAME_STATE_TITLE_INPUT ∨
      m.vars.gameState = K.GAME_STATE_RUNNING ∨
      m.vars.gameState = K.GAME_STATE_SCREEN_SCROLL ∨
      m.vars.gameState = K.GAME_STATE_PAUSED →
      ∃ m1, block [toggleCycle, mainSwitch K env] m = .returned m1 ∧
        ((∀ op ∈ opsSince m m1, KeepsGameState env op) →
          m1.vars.gameState = m.vars.gameState)) ∧
    (m.vars.gameState = K.GAME_STATE_CREDITS →
      opsSince m (block [toggleCycle, mainSwitch K env] m).machine
        = creditsOps K ++ [Op.reset] ∧
      ((∀ op ∈ creditsOps K ++ [Op.reset], KeepsGameState env op) →
        (block [toggleCycle, mainSwitch K env] m).machine.vars.gameState
          = m.vars.gameState)) := by
  refine ⟨?_, ?_, ?_, ?_, ?_, ?_, ?_, ?_, ?_⟩
  · intro h
    exact ⟨_, pass_SYSTEM_INIT K env hK m h, rfl⟩
  · intro h
    rcases h with h | h | h | h
    · obtain ⟨m1, h1, h2⟩ := run_POST_TITLE K env hret (toggled m)
      refine ⟨m1, ?_, h2⟩
      rw [pass_eq K env m 3 (mainSwitch_POST_TITLE K env hK (toggled m) h)]
      exact h1
    · obtain ⟨m1, h1, h2⟩ := run_SHOWING_TEXT K env hret (toggled m)
      refine ⟨m1, ?_, h2⟩
      rw [pass_eq K env m 6 (mainSwitch_SHOWING_TEXT K env hK (toggled m) h)]
      exact h1
    · obtain ⟨m1, h1, _, h2⟩ := run_GAME_OVER K env hret (toggled m)
      refine ⟨m1, ?_, h2⟩
      rw [pass_eq K env m 8 (mainSwitch_GAME_OVER K env hK (toggled m) h)]
      exact h1
    · obtain ⟨m1, h1, _, h2⟩ := run_GAME_OVER_1 K env hret (toggled m)
      refine ⟨m1, ?_, h2⟩
      rw [pass_eq K env m 9 (mainSwitch_GAME_OVER_1 K env hK (toggled m) h)]
      exact h1
  · intro h
    have hrun := pass_eq K env m 1 (mainSwitch_TITLE_DRAW K env hK (toggled m) h)
    rw [run_TITLE_DRAW K env hret] at hrun
    exact ⟨_, _, hrun, after_spec env hret Op.fade_in rfl _⟩
  · intro h
    have hrun := pass_eq K env m 2 (mainSwitch_TITLE_INPUT K env hK (toggled m) h)
    rw [run_TITLE_INPUT K env hret] at hrun
    exact ⟨_, _, hrun,
      after_spec env hret (.banked_call K.PRG_BANK_TITLE .handle_title_input) rfl _⟩
  · intro h
    have hrun := pass_eq K env m 4 (mainSwitch_RUNNING K env hK (toggled m) h)
    rw [run_RUNNING K env hret] at hrun
    exact ⟨_, _, hrun,
      after_spec env hret
        (.banked_call K.PRG_BANK_PLAYER_SPRITE .update_player_sprite) rfl _⟩
  · intro h
    have hrun := pass_eq K env m 5 (mainSwitch_SCREEN_SCROLL K env hK (toggled m) h)
    rw [run_SCREEN_SCROLL K env hret] at hrun
    exact ⟨_, _, _, hrun,
      after_spec env hret
        (.banked_call K.PRG_BANK_MAP_LOGIC .do_scroll_screen_transition) rfl _, rfl⟩
  · intro h
    have hrun := pass_eq K env m 7 (mainSwitch_PAUSED K env hK (toggled m) h)
    rw [run_PAUSED K env hret] at hrun
    by_cases ht : (pausedAtTest K env (toggled m).vars).gameState
        = K.GAME_STATE_GAME_OVER_1
    · rw [if_pos ht] at hrun
      exact ⟨_, _, hrun, Or.inl (after_spec env hret Op.fade_out rfl _)⟩
    · rw [if_neg ht] at hrun
      exact ⟨_, _, hrun, Or.inr (after_spec env hret Op.fade_in rfl _)⟩
  · intro h
    exact pass_keeps_gameState K env hK hret m h
  · intro h
    exact pass_CREDITS_keeps K env hK hret m h

theorem dispatch_transitions_witness :
    Consts.sample.LabelsDistinct ∧ Returns idleEnv ∧
    (sampleMachine 255 0 0).vars.gameState = Consts.sample.GAME_STATE_SYSTEM_INIT ∧
    ∃ m1,
      block [toggleCycle, mainSwitch Consts.sample idleEnv] (sampleMachine 255 0 0)
        = .returned m1 ∧
      m1.vars.gameState = Consts.sample.GAME_STATE_TITLE_DRAW :=
  ⟨by decide, idleEnv_returns, rfl,
   (dispatch_transitions Consts.sample idleEnv (sampleMachine 255 0 0)
      (by decide) idleEnv_returns).1 rfl⟩

end DreamDog
